import Mathlib

/-!
Object loader with context-scoped stubs (`loader/loader_mock.go`)

A shallow embedding of the `mockLoader` of the integration service: the
context keys, `MockData`, `GetMockedContext`, the generic helper
`getMockedResourceAndErrorFromContext` and the twenty-one `mockLoader` methods.

Conventions of the embedding

* A Go pointer `*T` is an `Option T`: `none` is the nil pointer, `some v` a
  pointer to an object whose content is `v` (pointer identity is not modelled,
  two pointers are compared by their pointees).
* A Go slice `[]T` is a `List T`; the nil slice and the empty slice are both `[]`.
* A Go `error` is an `Option ErrorValue`, `none` being the nil error.
* A Go call either returns its `(result, error)` pair or panics: `Outcome`.
* A Go `any` holding a stub result is an `Any`: `Any.nil` is the nil interface,
  every other constructor is a non-nil interface value with its dynamic type.
-/

namespace Loader

/-! ## Objects of the store (types of the imported API packages) -/

/-- The part of `metav1.ObjectMeta` the loader reads. -/
structure ObjectMeta where
  Name : String
  Namespace : String
  Labels : List (String × String)
deriving DecidableEq, Repr, Inhabited

/-- Value of label `key` in a label map, `none` when the label is missing. -/
def ObjectMeta.label (m : ObjectMeta) (key : String) : Option String :=
  (m.Labels.find? (fun kv => kv.1 = key)).map (fun kv => kv.2)

structure Application extends ObjectMeta where
  DisplayName : String
deriving DecidableEq, Repr, Inhabited

structure ComponentSpec where
  ComponentName : String
  Application : String
deriving DecidableEq, Repr, Inhabited

structure Component extends ObjectMeta where
  Spec : ComponentSpec
deriving DecidableEq, Repr, Inhabited

structure SnapshotComponent where
  Name : String
  ContainerImage : String
deriving DecidableEq, Repr, Inhabited

structure SnapshotSpec where
  Application : String
  Components : List SnapshotComponent
deriving DecidableEq, Repr, Inhabited

structure Snapshot extends ObjectMeta where
  Spec : SnapshotSpec
deriving DecidableEq, Repr, Inhabited

structure Environment extends ObjectMeta where
  ClaimName : String
deriving DecidableEq, Repr, Inhabited

structure Release extends ObjectMeta where
  Snapshot : String
deriving DecidableEq, Repr, Inhabited

structure DeploymentTargetClass extends ObjectMeta where
  Provisioner : String
deriving DecidableEq, Repr, Inhabited

structure DeploymentTargetClaim extends ObjectMeta where
  TargetName : String
deriving DecidableEq, Repr, Inhabited

structure DeploymentTarget extends ObjectMeta where
  DeploymentTargetClassName : String
deriving DecidableEq, Repr, Inhabited

structure SnapshotEnvironmentBinding extends ObjectMeta where
  Application : String
  Environment : String
deriving DecidableEq, Repr, Inhabited

structure IntegrationTestScenario extends ObjectMeta where
  Application : String
deriving DecidableEq, Repr, Inhabited

structure PipelineRun extends ObjectMeta where
  PipelineRefName : String
deriving DecidableEq, Repr, Inhabited

structure ReleasePlanSpec where
  Application : String
  Target : String
deriving DecidableEq, Repr, Inhabited

structure ReleasePlan extends ObjectMeta where
  Spec : ReleasePlanSpec
deriving DecidableEq, Repr, Inhabited

/-! ## Errors, panics, outcomes -/

/-- A non-nil Go `error` value. -/
inductive ErrorValue where
  | notFound (what : String)
  | message (text : String)
deriving DecidableEq, Repr, Inhabited

/-- Go `error`: `none` is the nil error. -/
abbrev GoError := Option ErrorValue

/-- The ways a call of this package can panic. -/
inductive Panic where
  /-- Go: `panic("Mocked data not found in the context")` -/
  | mockedDataNotFound
  /-- a failed single-value type assertion `x.(T)` -/
  | typeAssertion
  /-- dereference `*p` of a nil pointer -/
  | nilDereference
deriving DecidableEq, Repr, Inhabited

/-- Outcome of a Go call with results `(T, error)`. -/
inductive Outcome (T : Type) where
  | returns (value : T) (err : GoError)
  | panics (p : Panic)
deriving DecidableEq, Repr, Inhabited

/-! ## Type-erased stub results (`Resource any`) -/

/-- A Go `any` as stored in `MockData.Resource`: the nil interface, or a value
together with its dynamic type. A pointer constructor applied to `none` is a
typed nil pointer, which is a non-nil interface value. -/
inductive Any where
  | nil
  | ptrApplication (p : Option Application)
  | ptrComponent (p : Option Component)
  | ptrSnapshot (p : Option Snapshot)
  | ptrEnvironment (p : Option Environment)
  | ptrRelease (p : Option Release)
  | ptrDeploymentTargetClass (p : Option DeploymentTargetClass)
  | ptrDeploymentTargetClaim (p : Option DeploymentTargetClaim)
  | ptrDeploymentTarget (p : Option DeploymentTarget)
  | ptrSnapshotEnvironmentBinding (p : Option SnapshotEnvironmentBinding)
  | sliceComponent (xs : List Component)
  | slicePipelineRun (xs : List PipelineRun)
  | sliceIntegrationTestScenario (xs : List IntegrationTestScenario)
  | sliceSnapshot (xs : List Snapshot)
  | sliceReleasePlan (xs : List ReleasePlan)
  /-- an `Application` struct value (not a pointer) -/
  | application (v : Application)
  /-- a `*[]Component` (pointer to a slice) -/
  | ptrSliceComponent (p : Option (List Component))
  /-- a `[]Environment` -/
  | sliceEnvironment (xs : List Environment)
  /-- a `[]Release` -/
  | sliceRelease (xs : List Release)
  /-- a value of any other dynamic type, named by `typeName` -/
  | other (typeName : String)
deriving DecidableEq, Repr, Inhabited

/-! ## Context keys and `MockData` -/

/-- Go: `contextKey int`. -/
abbrev contextKey := Int

structure MockData where
  ContextKey : contextKey
  Err : GoError
  Resource : Any
deriving DecidableEq, Repr, Inhabited

abbrev ApplicationContextKey : contextKey := 0
abbrev ComponentContextKey : contextKey := 1
abbrev SnapshotContextKey : contextKey := 2
abbrev SnapshotEnvironmentBindingContextKey : contextKey := 3
abbrev DeploymentTargetContextKey : contextKey := 4
abbrev DeploymentTargetClaimContextKey : contextKey := 5
abbrev IntegrationTestScenarioContextKey : contextKey := 6
abbrev TaskRunContextKey : contextKey := 7
abbrev ApplicationComponentsContextKey : contextKey := 8
abbrev SnapshotComponentsContextKey : contextKey := 9
abbrev EnvironmentContextKey : contextKey := 10
abbrev ReleaseContextKey : contextKey := 11
abbrev PipelineRunsContextKey : contextKey := 12
abbrev DeploymentTargetClassContextKey : contextKey := 13
abbrev AllIntegrationTestScenariosContextKey : contextKey := 14
abbrev RequiredIntegrationTestScenariosContextKey : contextKey := 15
abbrev AllSnapshotsContextKey : contextKey := 16
abbrev AutoReleasePlansContextKey : contextKey := 17

/-! ## `context.Context` (standard library) -/

/-- A key passed to `context.WithValue` / `Value`: a value of type `contextKey`,
or a value of some other type. Keys of different types are never equal. -/
inductive Key where
  | contextKey (k : contextKey)
  | other (typeName : String) (value : String)
deriving DecidableEq, Repr, Inhabited

/-- A value held by a context under a key: nil, a `MockData`, or a value of
another type. -/
inductive CtxValue where
  | nil
  | mockData (d : MockData)
  | other (typeName : String)
deriving DecidableEq, Repr, Inhabited

/-- A context as a chain of `WithValue` nodes over a value-free root. -/
inductive Context where
  | background
  | withValue (parent : Context) (key : Key) (val : CtxValue)
deriving DecidableEq, Repr, Inhabited

/-- Go: `ctx.Value(key)`, the value of the innermost node whose key equals `key`,
nil when there is none. -/
def Context.Value : Context → Key → CtxValue
  | .background, _ => CtxValue.nil
  | .withValue parent k v, key => if k = key then v else parent.Value key

/-- Go: `GetMockedContext`. -/
def GetMockedContext (ctx : Context) (data : List MockData) : Context :=
  data.foldl (fun ctx mockData => Context.withValue ctx (Key.contextKey mockData.ContextKey) (CtxValue.mockData mockData)) ctx

/-! ## The generic helper -/

/-- What the generic helper uses of its type parameter `T`: the zero value of
`T` (`var resource T`) and the single-value type assertion `x.(T)`, which
yields `none` where Go panics (dynamic type of `x` is not `T`). -/
structure TypeParam (T : Type) where
  zero : T
  assert : Any → Option T

/-- Type parameter `T = *applicationapiv1alpha1.Application`. -/
def TypeParam.ptrApplication : TypeParam (Option Application) where
  zero := none
  assert := fun x => match x with
    | Any.ptrApplication p => some p
    | _ => none

/-- Type parameter `T = *applicationapiv1alpha1.Component`. -/
def TypeParam.ptrComponent : TypeParam (Option Component) where
  zero := none
  assert := fun x => match x with
    | Any.ptrComponent p => some p
    | _ => none

/-- Type parameter `T = *applicationapiv1alpha1.Snapshot`. -/
def TypeParam.ptrSnapshot : TypeParam (Option Snapshot) where
  zero := none
  assert := fun x => match x with
    | Any.ptrSnapshot p => some p
    | _ => none

/-- Type parameter `T = *applicationapiv1alpha1.Environment`. -/
def TypeParam.ptrEnvironment : TypeParam (Option Environment) where
  zero := none
  assert := fun x => match x with
    | Any.ptrEnvironment p => some p
    | _ => none

/-- Type parameter `T = *releasev1alpha1.Release`. -/
def TypeParam.ptrRelease : TypeParam (Option Release) where
  zero := none
  assert := fun x => match x with
    | Any.ptrRelease p => some p
    | _ => none

/-- Type parameter `T = *applicationapiv1alpha1.DeploymentTargetClass`. -/
def TypeParam.ptrDeploymentTargetClass : TypeParam (Option DeploymentTargetClass) where
  zero := none
  assert := fun x => match x with
    | Any.ptrDeploymentTargetClass p => some p
    | _ => none

/-- Type parameter `T = *applicationapiv1alpha1.DeploymentTargetClaim`. -/
def TypeParam.ptrDeploymentTargetClaim : TypeParam (Option DeploymentTargetClaim) where
  zero := none
  assert := fun x => match x with
    | Any.ptrDeploymentTargetClaim p => some p
    | _ => none

/-- Type parameter `T = *applicationapiv1alpha1.DeploymentTarget`. -/
def TypeParam.ptrDeploymentTarget : TypeParam (Option DeploymentTarget) where
  zero := none
  assert := fun x => match x with
    | Any.ptrDeploymentTarget p => some p
    | _ => none

/-- Type parameter `T = *applicationapiv1alpha1.SnapshotEnvironmentBinding`. -/
def TypeParam.ptrSnapshotEnvironmentBinding : TypeParam (Option SnapshotEnvironmentBinding) where
  zero := none
  assert := fun x => match x with
    | Any.ptrSnapshotEnvironmentBinding p => some p
    | _ => none

/-- Type parameter `T = []applicationapiv1alpha1.Component`. -/
def TypeParam.sliceComponent : TypeParam (List Component) where
  zero := []
  assert := fun x => match x with
    | Any.sliceComponent xs => some xs
    | _ => none

/-- Type parameter `T = []tektonv1beta1.PipelineRun`. -/
def TypeParam.slicePipelineRun : TypeParam (List PipelineRun) where
  zero := []
  assert := fun x => match x with
    | Any.slicePipelineRun xs => some xs
    | _ => none

/-- Type parameter `T = []v1beta1.IntegrationTestScenario`. -/
def TypeParam.sliceIntegrationTestScenario : TypeParam (List IntegrationTestScenario) where
  zero := []
  assert := fun x => match x with
    | Any.sliceIntegrationTestScenario xs => some xs
    | _ => none

/-- Type parameter `T = []applicationapiv1alpha1.Snapshot`. -/
def TypeParam.sliceSnapshot : TypeParam (List Snapshot) where
  zero := []
  assert := fun x => match x with
    | Any.sliceSnapshot xs => some xs
    | _ => none

/-- Type parameter `T = []releasev1alpha1.ReleasePlan`. -/
def TypeParam.sliceReleasePlan : TypeParam (List ReleasePlan) where
  zero := []
  assert := fun x => match x with
    | Any.sliceReleasePlan xs => some xs
    | _ => none

/-- The comma-ok assertion `data, _ := value.(MockData)`: the stored `MockData`,
or the zero `MockData` when the value has another type. -/
def CtxValue.asMockData : CtxValue → MockData
  | CtxValue.mockData d => d
  | _ => { ContextKey := 0, Err := none, Resource := Any.nil }

/-- Go: `getMockedResourceAndErrorFromContext[T any]`. The third argument only
fixes `T` at the call site and is ignored. -/
def getMockedResourceAndErrorFromContext {T : Type} (tp : TypeParam T) (ctx : Context)
    (contextKey : contextKey) (_ : T) : Outcome T :=
  let resource : T := tp.zero
  let err : GoError := none
  let value := ctx.Value (Key.contextKey contextKey)
  if value = CtxValue.nil then
    Outcome.panics Panic.mockedDataNotFound
  else
    let data := value.asMockData
    let asserted : Option T :=
      if data.Resource ≠ Any.nil then tp.assert data.Resource else some resource
    match asserted with
    | none => Outcome.panics Panic.typeAssertion
    | some resource =>
      let err := if data.Err ≠ none then data.Err else err
      Outcome.returns resource err

/-! ## The store client and the `ObjectLoader` interface -/

/-- Modelled from the spec: the store behind `client.Client`, as the committed
objects of each kind the resolver operations below read (`get(kind, name)` and
`list(kind, selector)` per namespace, section 6). `Fault`, when non-nil, is the
error with which the store fails every query (timeout, authorization failure). -/
structure Client where
  Applications : List Application
  Components : List Component
  PipelineRuns : List PipelineRun
  DeploymentTargetClasses : List DeploymentTargetClass
  ReleasePlans : List ReleasePlan
  Fault : GoError
deriving DecidableEq, Repr, Inhabited

/-- Go: the `ObjectLoader` interface, one field per method. -/
structure ObjectLoader where
  GetAllEnvironments : Client → Context → Option Application → Outcome (Option (List Environment))
  GetReleasesWithSnapshot : Client → Context → Option Snapshot → Outcome (Option (List Release))
  GetAllApplicationComponents : Client → Context → Option Application → Outcome (Option (List Component))
  GetAllSnapshotComponents : Client → Context → Option Snapshot → Outcome (Option (List Component))
  GetApplicationFromSnapshot : Client → Context → Option Snapshot → Outcome (Option Application)
  GetComponentFromSnapshot : Client → Context → Option Snapshot → Outcome (Option Component)
  GetComponentFromPipelineRun : Client → Context → Option PipelineRun → Outcome (Option Component)
  GetApplicationFromPipelineRun : Client → Context → Option PipelineRun → Outcome (Option Application)
  GetApplicationFromComponent : Client → Context → Option Component → Outcome (Option Application)
  GetEnvironmentFromIntegrationPipelineRun : Client → Context → Option PipelineRun → Outcome (Option Environment)
  GetSnapshotFromPipelineRun : Client → Context → Option PipelineRun → Outcome (Option Snapshot)
  FindAvailableDeploymentTargetClass : Client → Context → Outcome (Option DeploymentTargetClass)
  GetAllIntegrationTestScenariosForApplication : Client → Context → Option Application → Outcome (Option (List IntegrationTestScenario))
  GetRequiredIntegrationTestScenariosForApplication : Client → Context → Option Application → Outcome (Option (List IntegrationTestScenario))
  GetDeploymentTargetClaimForEnvironment : Client → Context → Option Environment → Outcome (Option DeploymentTargetClaim)
  GetDeploymentTargetForDeploymentTargetClaim : Client → Context → Option DeploymentTargetClaim → Outcome (Option DeploymentTarget)
  FindExistingSnapshotEnvironmentBinding : Client → Context → Option Application → Option Environment → Outcome (Option SnapshotEnvironmentBinding)
  GetAllPipelineRunsForSnapshotAndScenario : Client → Context → Option Snapshot → Option IntegrationTestScenario → Outcome (Option (List PipelineRun))
  GetAllBuildPipelineRunsForComponent : Client → Context → Option Component → Outcome (Option (List PipelineRun))
  GetAllSnapshots : Client → Context → Option Application → Outcome (Option (List Snapshot))
  GetAutoReleasePlansForApplication : Client → Context → Option Application → Outcome (Option (List ReleasePlan))

/-- Go: `mockLoader struct { loader ObjectLoader }`. -/
structure mockLoader where
  loader : ObjectLoader

/-- Go: `NewMockLoader`; `NewLoader()` (file `loader.go`) is passed in. -/
def NewMockLoader (NewLoader : ObjectLoader) : mockLoader :=
  { loader := NewLoader }

/-! ## The methods of `mockLoader` -/

/-- Go: `(l *mockLoader) GetAllEnvironments`. -/
def mockLoader.GetAllEnvironments (l : mockLoader) (c : Client) (ctx : Context)
    (application : Option Application) :
    Outcome (Option (List Environment)) :=
  if ctx.Value (Key.contextKey EnvironmentContextKey) = CtxValue.nil then
    l.loader.GetAllEnvironments c ctx application
  else
    match getMockedResourceAndErrorFromContext TypeParam.ptrEnvironment ctx EnvironmentContextKey (some default) with
    | Outcome.panics p => Outcome.panics p
    | Outcome.returns environment err =>
      match environment with
      | none => Outcome.panics Panic.nilDereference
      | some pointee => Outcome.returns (some [pointee]) err

/-- Go: `(l *mockLoader) GetReleasesWithSnapshot`. -/
def mockLoader.GetReleasesWithSnapshot (l : mockLoader) (c : Client) (ctx : Context)
    (snapshot : Option Snapshot) :
    Outcome (Option (List Release)) :=
  if ctx.Value (Key.contextKey ReleaseContextKey) = CtxValue.nil then
    l.loader.GetReleasesWithSnapshot c ctx snapshot
  else
    match getMockedResourceAndErrorFromContext TypeParam.ptrRelease ctx ReleaseContextKey (some default) with
    | Outcome.panics p => Outcome.panics p
    | Outcome.returns release err =>
      match release with
      | none => Outcome.panics Panic.nilDereference
      | some pointee => Outcome.returns (some [pointee]) err

/-- Go: `(l *mockLoader) GetAllApplicationComponents`. -/
def mockLoader.GetAllApplicationComponents (l : mockLoader) (c : Client) (ctx : Context)
    (application : Option Application) :
    Outcome (Option (List Component)) :=
  if ctx.Value (Key.contextKey ApplicationComponentsContextKey) = CtxValue.nil then
    l.loader.GetAllApplicationComponents c ctx application
  else
    match getMockedResourceAndErrorFromContext TypeParam.sliceComponent ctx ApplicationComponentsContextKey [] with
    | Outcome.panics p => Outcome.panics p
    | Outcome.returns components err => Outcome.returns (some components) err

/-- Go: `(l *mockLoader) GetAllSnapshotComponents`. -/
def mockLoader.GetAllSnapshotComponents (l : mockLoader) (c : Client) (ctx : Context)
    (snapshot : Option Snapshot) :
    Outcome (Option (List Component)) :=
  if ctx.Value (Key.contextKey SnapshotComponentsContextKey) = CtxValue.nil then
    l.loader.GetAllSnapshotComponents c ctx snapshot
  else
    match getMockedResourceAndErrorFromContext TypeParam.sliceComponent ctx SnapshotComponentsContextKey [] with
    | Outcome.panics p => Outcome.panics p
    | Outcome.returns components err => Outcome.returns (some components) err

/-- Go: `(l *mockLoader) GetApplicationFromSnapshot`. -/
def mockLoader.GetApplicationFromSnapshot (l : mockLoader) (c : Client) (ctx : Context)
    (snapshot : Option Snapshot) :
    Outcome (Option Application) :=
  if ctx.Value (Key.contextKey ApplicationContextKey) = CtxValue.nil then
    l.loader.GetApplicationFromSnapshot c ctx snapshot
  else
    getMockedResourceAndErrorFromContext TypeParam.ptrApplication ctx ApplicationContextKey (some default)

/-- Go: `(l *mockLoader) GetComponentFromSnapshot`. -/
def mockLoader.GetComponentFromSnapshot (l : mockLoader) (c : Client) (ctx : Context)
    (snapshot : Option Snapshot) :
    Outcome (Option Component) :=
  if ctx.Value (Key.contextKey ComponentContextKey) = CtxValue.nil then
    l.loader.GetComponentFromSnapshot c ctx snapshot
  else
    getMockedResourceAndErrorFromContext TypeParam.ptrComponent ctx ComponentContextKey (some default)

/-- Go: `(l *mockLoader) GetComponentFromPipelineRun`. -/
def mockLoader.GetComponentFromPipelineRun (l : mockLoader) (c : Client) (ctx : Context)
    (pipelineRun : Option PipelineRun) :
    Outcome (Option Component) :=
  if ctx.Value (Key.contextKey ComponentContextKey) = CtxValue.nil then
    l.loader.GetComponentFromPipelineRun c ctx pipelineRun
  else
    getMockedResourceAndErrorFromContext TypeParam.ptrComponent ctx ComponentContextKey (some default)

/-- Go: `(l *mockLoader) GetApplicationFromPipelineRun`. -/
def mockLoader.GetApplicationFromPipelineRun (l : mockLoader) (c : Client) (ctx : Context)
    (pipelineRun : Option PipelineRun) :
    Outcome (Option Application) :=
  if ctx.Value (Key.contextKey ApplicationContextKey) = CtxValue.nil then
    l.loader.GetApplicationFromPipelineRun c ctx pipelineRun
  else
    getMockedResourceAndErrorFromContext TypeParam.ptrApplication ctx ApplicationContextKey (some default)

/-- Go: `(l *mockLoader) GetApplicationFromComponent`. -/
def mockLoader.GetApplicationFromComponent (l : mockLoader) (c : Client) (ctx : Context)
    (component : Option Component) :
    Outcome (Option Application) :=
  if ctx.Value (Key.contextKey ApplicationContextKey) = CtxValue.nil then
    l.loader.GetApplicationFromComponent c ctx component
  else
    getMockedResourceAndErrorFromContext TypeParam.ptrApplication ctx ApplicationContextKey (some default)

/-- Go: `(l *mockLoader) GetEnvironmentFromIntegrationPipelineRun`. -/
def mockLoader.GetEnvironmentFromIntegrationPipelineRun (l : mockLoader) (c : Client) (ctx : Context)
    (pipelineRun : Option PipelineRun) :
    Outcome (Option Environment) :=
  if ctx.Value (Key.contextKey EnvironmentContextKey) = CtxValue.nil then
    l.loader.GetEnvironmentFromIntegrationPipelineRun c ctx pipelineRun
  else
    getMockedResourceAndErrorFromContext TypeParam.ptrEnvironment ctx EnvironmentContextKey (some default)

/-- Go: `(l *mockLoader) GetSnapshotFromPipelineRun`. -/
def mockLoader.GetSnapshotFromPipelineRun (l : mockLoader) (c : Client) (ctx : Context)
    (pipelineRun : Option PipelineRun) :
    Outcome (Option Snapshot) :=
  if ctx.Value (Key.contextKey SnapshotContextKey) = CtxValue.nil then
    l.loader.GetSnapshotFromPipelineRun c ctx pipelineRun
  else
    getMockedResourceAndErrorFromContext TypeParam.ptrSnapshot ctx SnapshotContextKey (some default)

/-- Go: `(l *mockLoader) FindAvailableDeploymentTargetClass`. -/
def mockLoader.FindAvailableDeploymentTargetClass (l : mockLoader) (c : Client) (ctx : Context) :
    Outcome (Option DeploymentTargetClass) :=
  if ctx.Value (Key.contextKey DeploymentTargetClassContextKey) = CtxValue.nil then
    l.loader.FindAvailableDeploymentTargetClass c ctx
  else
    getMockedResourceAndErrorFromContext TypeParam.ptrDeploymentTargetClass ctx DeploymentTargetClassContextKey (some default)

/-- Go: `(l *mockLoader) GetAllIntegrationTestScenariosForApplication`. -/
def mockLoader.GetAllIntegrationTestScenariosForApplication (l : mockLoader) (c : Client) (ctx : Context)
    (application : Option Application) :
    Outcome (Option (List IntegrationTestScenario)) :=
  if ctx.Value (Key.contextKey AllIntegrationTestScenariosContextKey) = CtxValue.nil then
    l.loader.GetAllIntegrationTestScenariosForApplication c ctx application
  else
    match getMockedResourceAndErrorFromContext TypeParam.sliceIntegrationTestScenario ctx AllIntegrationTestScenariosContextKey [] with
    | Outcome.panics p => Outcome.panics p
    | Outcome.returns integrationTestScenarios err => Outcome.returns (some integrationTestScenarios) err

/-- Go: `(l *mockLoader) GetRequiredIntegrationTestScenariosForApplication`. -/
def mockLoader.GetRequiredIntegrationTestScenariosForApplication (l : mockLoader) (c : Client) (ctx : Context)
    (application : Option Application) :
    Outcome (Option (List IntegrationTestScenario)) :=
  if ctx.Value (Key.contextKey RequiredIntegrationTestScenariosContextKey) = CtxValue.nil then
    l.loader.GetRequiredIntegrationTestScenariosForApplication c ctx application
  else
    match getMockedResourceAndErrorFromContext TypeParam.sliceIntegrationTestScenario ctx RequiredIntegrationTestScenariosContextKey [] with
    | Outcome.panics p => Outcome.panics p
    | Outcome.returns integrationTestScenarios err => Outcome.returns (some integrationTestScenarios) err

/-- Go: `(l *mockLoader) GetDeploymentTargetClaimForEnvironment`. -/
def mockLoader.GetDeploymentTargetClaimForEnvironment (l : mockLoader) (c : Client) (ctx : Context)
    (environment : Option Environment) :
    Outcome (Option DeploymentTargetClaim) :=
  if ctx.Value (Key.contextKey DeploymentTargetClaimContextKey) = CtxValue.nil then
    l.loader.GetDeploymentTargetClaimForEnvironment c ctx environment
  else
    getMockedResourceAndErrorFromContext TypeParam.ptrDeploymentTargetClaim ctx DeploymentTargetClaimContextKey (some default)

/-- Go: `(l *mockLoader) GetDeploymentTargetForDeploymentTargetClaim`. -/
def mockLoader.GetDeploymentTargetForDeploymentTargetClaim (l : mockLoader) (c : Client) (ctx : Context)
    (dtc : Option DeploymentTargetClaim) :
    Outcome (Option DeploymentTarget) :=
  if ctx.Value (Key.contextKey DeploymentTargetContextKey) = CtxValue.nil then
    l.loader.GetDeploymentTargetForDeploymentTargetClaim c ctx dtc
  else
    getMockedResourceAndErrorFromContext TypeParam.ptrDeploymentTarget ctx DeploymentTargetContextKey (some default)

/-- Go: `(l *mockLoader) FindExistingSnapshotEnvironmentBinding`. -/
def mockLoader.FindExistingSnapshotEnvironmentBinding (l : mockLoader) (c : Client) (ctx : Context)
    (application : Option Application) (environment : Option Environment) :
    Outcome (Option SnapshotEnvironmentBinding) :=
  if ctx.Value (Key.contextKey SnapshotEnvironmentBindingContextKey) = CtxValue.nil then
    l.loader.FindExistingSnapshotEnvironmentBinding c ctx application environment
  else
    getMockedResourceAndErrorFromContext TypeParam.ptrSnapshotEnvironmentBinding ctx SnapshotEnvironmentBindingContextKey (some default)

/-- Go: `(l *mockLoader) GetAllPipelineRunsForSnapshotAndScenario`. -/
def mockLoader.GetAllPipelineRunsForSnapshotAndScenario (l : mockLoader) (c : Client) (ctx : Context)
    (snapshot : Option Snapshot) (integrationTestScenario : Option IntegrationTestScenario) :
    Outcome (Option (List PipelineRun)) :=
  if ctx.Value (Key.contextKey PipelineRunsContextKey) = CtxValue.nil then
    l.loader.GetAllPipelineRunsForSnapshotAndScenario c ctx snapshot integrationTestScenario
  else
    match getMockedResourceAndErrorFromContext TypeParam.slicePipelineRun ctx PipelineRunsContextKey [] with
    | Outcome.panics p => Outcome.panics p
    | Outcome.returns pipelineRuns err => Outcome.returns (some pipelineRuns) err

/-- Go: `(l *mockLoader) GetAllBuildPipelineRunsForComponent`. -/
def mockLoader.GetAllBuildPipelineRunsForComponent (l : mockLoader) (c : Client) (ctx : Context)
    (component : Option Component) :
    Outcome (Option (List PipelineRun)) :=
  if ctx.Value (Key.contextKey PipelineRunsContextKey) = CtxValue.nil then
    l.loader.GetAllBuildPipelineRunsForComponent c ctx component
  else
    match getMockedResourceAndErrorFromContext TypeParam.slicePipelineRun ctx PipelineRunsContextKey [] with
    | Outcome.panics p => Outcome.panics p
    | Outcome.returns pipelineRuns err => Outcome.returns (some pipelineRuns) err

/-- Go: `(l *mockLoader) GetAllSnapshots`. -/
def mockLoader.GetAllSnapshots (l : mockLoader) (c : Client) (ctx : Context)
    (application : Option Application) :
    Outcome (Option (List Snapshot)) :=
  if ctx.Value (Key.contextKey AllSnapshotsContextKey) = CtxValue.nil then
    l.loader.GetAllSnapshots c ctx application
  else
    match getMockedResourceAndErrorFromContext TypeParam.sliceSnapshot ctx AllSnapshotsContextKey [] with
    | Outcome.panics p => Outcome.panics p
    | Outcome.returns snapshots err => Outcome.returns (some snapshots) err

/-- Go: `(l *mockLoader) GetAutoReleasePlansForApplication`. -/
def mockLoader.GetAutoReleasePlansForApplication (l : mockLoader) (c : Client) (ctx : Context)
    (application : Option Application) :
    Outcome (Option (List ReleasePlan)) :=
  if ctx.Value (Key.contextKey AutoReleasePlansContextKey) = CtxValue.nil then
    l.loader.GetAutoReleasePlansForApplication c ctx application
  else
    match getMockedResourceAndErrorFromContext TypeParam.sliceReleasePlan ctx AutoReleasePlansContextKey [] with
    | Outcome.panics p => Outcome.panics p
    | Outcome.returns autoReleasePlans err => Outcome.returns (some autoReleasePlans) err

/-! ## The operations as an indexed family -/

/-- The twenty-one methods of `ObjectLoader`. -/
inductive Op where
  | GetAllEnvironments
  | GetReleasesWithSnapshot
  | GetAllApplicationComponents
  | GetAllSnapshotComponents
  | GetApplicationFromSnapshot
  | GetComponentFromSnapshot
  | GetComponentFromPipelineRun
  | GetApplicationFromPipelineRun
  | GetApplicationFromComponent
  | GetEnvironmentFromIntegrationPipelineRun
  | GetSnapshotFromPipelineRun
  | FindAvailableDeploymentTargetClass
  | GetAllIntegrationTestScenariosForApplication
  | GetRequiredIntegrationTestScenariosForApplication
  | GetDeploymentTargetClaimForEnvironment
  | GetDeploymentTargetForDeploymentTargetClaim
  | FindExistingSnapshotEnvironmentBinding
  | GetAllPipelineRunsForSnapshotAndScenario
  | GetAllBuildPipelineRunsForComponent
  | GetAllSnapshots
  | GetAutoReleasePlansForApplication
deriving DecidableEq, Repr, Inhabited

/-- Input objects of an operation (after the client and the context). -/
@[reducible] def Op.Input : Op → Type
  | Op.GetAllEnvironments => Option Application
  | Op.GetReleasesWithSnapshot => Option Snapshot
  | Op.GetAllApplicationComponents => Option Application
  | Op.GetAllSnapshotComponents => Option Snapshot
  | Op.GetApplicationFromSnapshot => Option Snapshot
  | Op.GetComponentFromSnapshot => Option Snapshot
  | Op.GetComponentFromPipelineRun => Option PipelineRun
  | Op.GetApplicationFromPipelineRun => Option PipelineRun
  | Op.GetApplicationFromComponent => Option Component
  | Op.GetEnvironmentFromIntegrationPipelineRun => Option PipelineRun
  | Op.GetSnapshotFromPipelineRun => Option PipelineRun
  | Op.FindAvailableDeploymentTargetClass => Unit
  | Op.GetAllIntegrationTestScenariosForApplication => Option Application
  | Op.GetRequiredIntegrationTestScenariosForApplication => Option Application
  | Op.GetDeploymentTargetClaimForEnvironment => Option Environment
  | Op.GetDeploymentTargetForDeploymentTargetClaim => Option DeploymentTargetClaim
  | Op.FindExistingSnapshotEnvironmentBinding => Option Application × Option Environment
  | Op.GetAllPipelineRunsForSnapshotAndScenario => Option Snapshot × Option IntegrationTestScenario
  | Op.GetAllBuildPipelineRunsForComponent => Option Component
  | Op.GetAllSnapshots => Option Application
  | Op.GetAutoReleasePlansForApplication => Option Application

/-- Result type of an operation. -/
@[reducible] def Op.Result : Op → Type
  | Op.GetAllEnvironments => Option (List Environment)
  | Op.GetReleasesWithSnapshot => Option (List Release)
  | Op.GetAllApplicationComponents => Option (List Component)
  | Op.GetAllSnapshotComponents => Option (List Component)
  | Op.GetApplicationFromSnapshot => Option Application
  | Op.GetComponentFromSnapshot => Option Component
  | Op.GetComponentFromPipelineRun => Option Component
  | Op.GetApplicationFromPipelineRun => Option Application
  | Op.GetApplicationFromComponent => Option Application
  | Op.GetEnvironmentFromIntegrationPipelineRun => Option Environment
  | Op.GetSnapshotFromPipelineRun => Option Snapshot
  | Op.FindAvailableDeploymentTargetClass => Option DeploymentTargetClass
  | Op.GetAllIntegrationTestScenariosForApplication => Option (List IntegrationTestScenario)
  | Op.GetRequiredIntegrationTestScenariosForApplication => Option (List IntegrationTestScenario)
  | Op.GetDeploymentTargetClaimForEnvironment => Option DeploymentTargetClaim
  | Op.GetDeploymentTargetForDeploymentTargetClaim => Option DeploymentTarget
  | Op.FindExistingSnapshotEnvironmentBinding => Option SnapshotEnvironmentBinding
  | Op.GetAllPipelineRunsForSnapshotAndScenario => Option (List PipelineRun)
  | Op.GetAllBuildPipelineRunsForComponent => Option (List PipelineRun)
  | Op.GetAllSnapshots => Option (List Snapshot)
  | Op.GetAutoReleasePlansForApplication => Option (List ReleasePlan)

/-- The context key a `mockLoader` method looks its stub up under. -/
def Op.key : Op → contextKey
  | Op.GetAllEnvironments => EnvironmentContextKey
  | Op.GetReleasesWithSnapshot => ReleaseContextKey
  | Op.GetAllApplicationComponents => ApplicationComponentsContextKey
  | Op.GetAllSnapshotComponents => SnapshotComponentsContextKey
  | Op.GetApplicationFromSnapshot => ApplicationContextKey
  | Op.GetComponentFromSnapshot => ComponentContextKey
  | Op.GetComponentFromPipelineRun => ComponentContextKey
  | Op.GetApplicationFromPipelineRun => ApplicationContextKey
  | Op.GetApplicationFromComponent => ApplicationContextKey
  | Op.GetEnvironmentFromIntegrationPipelineRun => EnvironmentContextKey
  | Op.GetSnapshotFromPipelineRun => SnapshotContextKey
  | Op.FindAvailableDeploymentTargetClass => DeploymentTargetClassContextKey
  | Op.GetAllIntegrationTestScenariosForApplication => AllIntegrationTestScenariosContextKey
  | Op.GetRequiredIntegrationTestScenariosForApplication => RequiredIntegrationTestScenariosContextKey
  | Op.GetDeploymentTargetClaimForEnvironment => DeploymentTargetClaimContextKey
  | Op.GetDeploymentTargetForDeploymentTargetClaim => DeploymentTargetContextKey
  | Op.FindExistingSnapshotEnvironmentBinding => SnapshotEnvironmentBindingContextKey
  | Op.GetAllPipelineRunsForSnapshotAndScenario => PipelineRunsContextKey
  | Op.GetAllBuildPipelineRunsForComponent => PipelineRunsContextKey
  | Op.GetAllSnapshots => AllSnapshotsContextKey
  | Op.GetAutoReleasePlansForApplication => AutoReleasePlansContextKey

/-- Call of operation `o` on the wrapped (real) loader. -/
def ObjectLoader.call (r : ObjectLoader) :
    (o : Op) → Client → Context → o.Input → Outcome o.Result
  | Op.GetAllEnvironments, c, ctx, i => r.GetAllEnvironments c ctx i
  | Op.GetReleasesWithSnapshot, c, ctx, i => r.GetReleasesWithSnapshot c ctx i
  | Op.GetAllApplicationComponents, c, ctx, i => r.GetAllApplicationComponents c ctx i
  | Op.GetAllSnapshotComponents, c, ctx, i => r.GetAllSnapshotComponents c ctx i
  | Op.GetApplicationFromSnapshot, c, ctx, i => r.GetApplicationFromSnapshot c ctx i
  | Op.GetComponentFromSnapshot, c, ctx, i => r.GetComponentFromSnapshot c ctx i
  | Op.GetComponentFromPipelineRun, c, ctx, i => r.GetComponentFromPipelineRun c ctx i
  | Op.GetApplicationFromPipelineRun, c, ctx, i => r.GetApplicationFromPipelineRun c ctx i
  | Op.GetApplicationFromComponent, c, ctx, i => r.GetApplicationFromComponent c ctx i
  | Op.GetEnvironmentFromIntegrationPipelineRun, c, ctx, i => r.GetEnvironmentFromIntegrationPipelineRun c ctx i
  | Op.GetSnapshotFromPipelineRun, c, ctx, i => r.GetSnapshotFromPipelineRun c ctx i
  | Op.FindAvailableDeploymentTargetClass, c, ctx, _ => r.FindAvailableDeploymentTargetClass c ctx
  | Op.GetAllIntegrationTestScenariosForApplication, c, ctx, i => r.GetAllIntegrationTestScenariosForApplication c ctx i
  | Op.GetRequiredIntegrationTestScenariosForApplication, c, ctx, i => r.GetRequiredIntegrationTestScenariosForApplication c ctx i
  | Op.GetDeploymentTargetClaimForEnvironment, c, ctx, i => r.GetDeploymentTargetClaimForEnvironment c ctx i
  | Op.GetDeploymentTargetForDeploymentTargetClaim, c, ctx, i => r.GetDeploymentTargetForDeploymentTargetClaim c ctx i
  | Op.FindExistingSnapshotEnvironmentBinding, c, ctx, i => r.FindExistingSnapshotEnvironmentBinding c ctx i.1 i.2
  | Op.GetAllPipelineRunsForSnapshotAndScenario, c, ctx, i => r.GetAllPipelineRunsForSnapshotAndScenario c ctx i.1 i.2
  | Op.GetAllBuildPipelineRunsForComponent, c, ctx, i => r.GetAllBuildPipelineRunsForComponent c ctx i
  | Op.GetAllSnapshots, c, ctx, i => r.GetAllSnapshots c ctx i
  | Op.GetAutoReleasePlansForApplication, c, ctx, i => r.GetAutoReleasePlansForApplication c ctx i

/-- Call of operation `o` on the mock loader. -/
def mockLoader.call (l : mockLoader) :
    (o : Op) → Client → Context → o.Input → Outcome o.Result
  | Op.GetAllEnvironments, c, ctx, i => l.GetAllEnvironments c ctx i
  | Op.GetReleasesWithSnapshot, c, ctx, i => l.GetReleasesWithSnapshot c ctx i
  | Op.GetAllApplicationComponents, c, ctx, i => l.GetAllApplicationComponents c ctx i
  | Op.GetAllSnapshotComponents, c, ctx, i => l.GetAllSnapshotComponents c ctx i
  | Op.GetApplicationFromSnapshot, c, ctx, i => l.GetApplicationFromSnapshot c ctx i
  | Op.GetComponentFromSnapshot, c, ctx, i => l.GetComponentFromSnapshot c ctx i
  | Op.GetComponentFromPipelineRun, c, ctx, i => l.GetComponentFromPipelineRun c ctx i
  | Op.GetApplicationFromPipelineRun, c, ctx, i => l.GetApplicationFromPipelineRun c ctx i
  | Op.GetApplicationFromComponent, c, ctx, i => l.GetApplicationFromComponent c ctx i
  | Op.GetEnvironmentFromIntegrationPipelineRun, c, ctx, i => l.GetEnvironmentFromIntegrationPipelineRun c ctx i
  | Op.GetSnapshotFromPipelineRun, c, ctx, i => l.GetSnapshotFromPipelineRun c ctx i
  | Op.FindAvailableDeploymentTargetClass, c, ctx, _ => l.FindAvailableDeploymentTargetClass c ctx
  | Op.GetAllIntegrationTestScenariosForApplication, c, ctx, i => l.GetAllIntegrationTestScenariosForApplication c ctx i
  | Op.GetRequiredIntegrationTestScenariosForApplication, c, ctx, i => l.GetRequiredIntegrationTestScenariosForApplication c ctx i
  | Op.GetDeploymentTargetClaimForEnvironment, c, ctx, i => l.GetDeploymentTargetClaimForEnvironment c ctx i
  | Op.GetDeploymentTargetForDeploymentTargetClaim, c, ctx, i => l.GetDeploymentTargetForDeploymentTargetClaim c ctx i
  | Op.FindExistingSnapshotEnvironmentBinding, c, ctx, i => l.FindExistingSnapshotEnvironmentBinding c ctx i.1 i.2
  | Op.GetAllPipelineRunsForSnapshotAndScenario, c, ctx, i => l.GetAllPipelineRunsForSnapshotAndScenario c ctx i.1 i.2
  | Op.GetAllBuildPipelineRunsForComponent, c, ctx, i => l.GetAllBuildPipelineRunsForComponent c ctx i
  | Op.GetAllSnapshots, c, ctx, i => l.GetAllSnapshots c ctx i
  | Op.GetAutoReleasePlansForApplication, c, ctx, i => l.GetAutoReleasePlansForApplication c ctx i

/-! ## The resolver operations behind the mock (file `loader.go`) -/

/-- Label key of the auto-release flag of a ReleasePlan. -/
def AutoReleaseLabel : String := "release.appstudio.openshift.io/auto-release"

/-- Modelled from the spec: the resolver operation `GetAutoReleasePlansForApplication`
of the real loader, whose file `loader.go` is not among the sources. It lists
the ReleasePlans for the Application (those of its namespace whose
`Spec.Application` is its name) and excludes any whose auto-release label is
explicitly set to `"false"`; a missing label is treated as opted in. An error
of the store is propagated without translation. -/
def loader.GetAutoReleasePlansForApplication (c : Client) (_ctx : Context)
    (application : Application) : Outcome (Option (List ReleasePlan)) :=
  match c.Fault with
  | some err => Outcome.returns none (some err)
  | none =>
    let releasePlans := c.ReleasePlans.filter (fun plan =>
      decide (plan.Namespace = application.Namespace ∧ plan.Spec.Application = application.Name))
    Outcome.returns
      (some (releasePlans.filter (fun plan => decide (plan.label AutoReleaseLabel ≠ some "false"))))
      none

/-- Modelled from the spec: the resolver operation `GetAllSnapshotComponents` of
the real loader, whose file `loader.go` is not among the sources. Of the
Components that share the Snapshot's namespace and Application it returns only
those whose name appears in the Snapshot's embedded component list. An error of
the store is propagated without translation. -/
def loader.GetAllSnapshotComponents (c : Client) (_ctx : Context) (snapshot : Snapshot) :
    Outcome (Option (List Component)) :=
  match c.Fault with
  | some err => Outcome.returns none (some err)
  | none =>
    let applicationComponents := c.Components.filter (fun component =>
      decide (component.Namespace = snapshot.Namespace ∧
        component.Spec.Application = snapshot.Spec.Application))
    Outcome.returns
      (some (applicationComponents.filter (fun component =>
        decide (component.Name ∈ snapshot.Spec.Components.map (fun sc => sc.Name)))))
      none

/-- Label key under which a PipelineRun carries the name of its Snapshot. -/
def SnapshotLabel : String := "appstudio.openshift.io/snapshot"

/-- Label key under which a PipelineRun carries the name of its test scenario. -/
def ScenarioLabel : String := "test.appstudio.openshift.io/scenario"

/-- Modelled from the spec: the resolver operation `GetApplicationFromSnapshot` of
the real loader, whose file `loader.go` is not among the sources. It looks the
parent up by the name embedded in the child (`Snapshot.Spec.Application`) in
the namespace of the Snapshot, and fails with `NotFound` when the name does not
resolve to an existing object there. An error of the store is propagated
without translation. -/
def loader.GetApplicationFromSnapshot (c : Client) (_ctx : Context) (snapshot : Snapshot) :
    Outcome (Option Application) :=
  match c.Fault with
  | some err => Outcome.returns none (some err)
  | none =>
    match c.Applications.find? (fun application =>
      decide (application.Namespace = snapshot.Namespace ∧
        application.Name = snapshot.Spec.Application)) with
    | some application => Outcome.returns (some application) none
    | none => Outcome.returns none (some (ErrorValue.notFound snapshot.Spec.Application))

/-- Label key under which a PipelineRun carries its pipeline type. -/
def PipelineTypeLabel : String := "pipelines.appstudio.openshift.io/type"

/-- Modelled from the spec: the resolver operation
`GetAllPipelineRunsForSnapshotAndScenario` of the real loader, whose file
`loader.go` is not among the sources. It lists the PipelineRuns of the namespace
of the Snapshot whose labels carry the name of the Snapshot and the name of the
test scenario; no match is an empty collection, not an error. The test "can
fetch all pipelineRuns for snapshot and scenario" of `loader_test.go` shows
that the real operation selects further among them: its store holds two
PipelineRuns carrying the pair and one is returned. That further selection is
given neither by the specification nor by the sources and is the parameter
`selects`. An error of the store is propagated without translation. -/
def loader.GetAllPipelineRunsForSnapshotAndScenario (selects : PipelineRun → Bool)
    (c : Client) (_ctx : Context)
    (snapshot : Snapshot) (integrationTestScenario : IntegrationTestScenario) :
    Outcome (Option (List PipelineRun)) :=
  match c.Fault with
  | some err => Outcome.returns none (some err)
  | none =>
    Outcome.returns
      (some (c.PipelineRuns.filter (fun pipelineRun =>
        decide ((pipelineRun.Namespace = snapshot.Namespace ∧
          pipelineRun.label SnapshotLabel = some snapshot.Name ∧
          pipelineRun.label ScenarioLabel = some integrationTestScenario.Name) ∧
          selects pipelineRun = true))))
      none

/-- Modelled from the spec: the resolver operation
`FindAvailableDeploymentTargetClass` of the real loader, whose file `loader.go`
is not among the sources. It chooses the first class, in listing order, that
matches the provisioner criteria, and fails with `NotFound` when none does. The
criteria themselves are not given by the specification and are the parameter
`matchesProvisioner`. An error of the store is propagated without translation. -/
def loader.FindAvailableDeploymentTargetClass (matchesProvisioner : DeploymentTargetClass → Bool)
    (c : Client) (_ctx : Context) : Outcome (Option DeploymentTargetClass) :=
  match c.Fault with
  | some err => Outcome.returns none (some err)
  | none =>
    match c.DeploymentTargetClasses.find? matchesProvisioner with
    | some deploymentTargetClass => Outcome.returns (some deploymentTargetClass) none
    | none => Outcome.returns none (some (ErrorValue.notFound "DeploymentTargetClass"))

/-- The exported context-key constants, in declaration order. -/
def contextKeys : List contextKey :=
  [ApplicationContextKey, ComponentContextKey, SnapshotContextKey,
   SnapshotEnvironmentBindingContextKey, DeploymentTargetContextKey,
   DeploymentTargetClaimContextKey, IntegrationTestScenarioContextKey, TaskRunContextKey,
   ApplicationComponentsContextKey, SnapshotComponentsContextKey, EnvironmentContextKey,
   ReleaseContextKey, PipelineRunsContextKey, DeploymentTargetClassContextKey,
   AllIntegrationTestScenariosContextKey, RequiredIntegrationTestScenariosContextKey,
   AllSnapshotsContextKey, AutoReleasePlansContextKey]

/-! ## What a stub is expected to return (the reading of the specification) -/

/-- The result operation `o` is to return for a registered value `r`, when `r`
is a non-nil value of the type `o` expects, and `none` when it is not such a
value: a single-object operation returns the registered pointer itself, a
listing operation stubbed by a slice returns a pointer to a collection equal to
that slice, and the two listing operations stubbed by a single object
(`GetAllEnvironments`, `GetReleasesWithSnapshot`) return the collection made of
that object. -/
def Op.stubbedBy : (o : Op) → Any → Option o.Result
  | Op.GetAllEnvironments => fun r => match r with
    | Any.ptrEnvironment (some object) => some (some [object])
    | _ => none
  | Op.GetReleasesWithSnapshot => fun r => match r with
    | Any.ptrRelease (some object) => some (some [object])
    | _ => none
  | Op.GetAllApplicationComponents => fun r => match r with
    | Any.sliceComponent collection => some (some collection)
    | _ => none
  | Op.GetAllSnapshotComponents => fun r => match r with
    | Any.sliceComponent collection => some (some collection)
    | _ => none
  | Op.GetApplicationFromSnapshot => fun r => match r with
    | Any.ptrApplication (some object) => some (some object)
    | _ => none
  | Op.GetComponentFromSnapshot => fun r => match r with
    | Any.ptrComponent (some object) => some (some object)
    | _ => none
  | Op.GetComponentFromPipelineRun => fun r => match r with
    | Any.ptrComponent (some object) => some (some object)
    | _ => none
  | Op.GetApplicationFromPipelineRun => fun r => match r with
    | Any.ptrApplication (some object) => some (some object)
    | _ => none
  | Op.GetApplicationFromComponent => fun r => match r with
    | Any.ptrApplication (some object) => some (some object)
    | _ => none
  | Op.GetEnvironmentFromIntegrationPipelineRun => fun r => match r with
    | Any.ptrEnvironment (some object) => some (some object)
    | _ => none
  | Op.GetSnapshotFromPipelineRun => fun r => match r with
    | Any.ptrSnapshot (some object) => some (some object)
    | _ => none
  | Op.FindAvailableDeploymentTargetClass => fun r => match r with
    | Any.ptrDeploymentTargetClass (some object) => some (some object)
    | _ => none
  | Op.GetAllIntegrationTestScenariosForApplication => fun r => match r with
    | Any.sliceIntegrationTestScenario collection => some (some collection)
    | _ => none
  | Op.GetRequiredIntegrationTestScenariosForApplication => fun r => match r with
    | Any.sliceIntegrationTestScenario collection => some (some collection)
    | _ => none
  | Op.GetDeploymentTargetClaimForEnvironment => fun r => match r with
    | Any.ptrDeploymentTargetClaim (some object) => some (some object)
    | _ => none
  | Op.GetDeploymentTargetForDeploymentTargetClaim => fun r => match r with
    | Any.ptrDeploymentTarget (some object) => some (some object)
    | _ => none
  | Op.FindExistingSnapshotEnvironmentBinding => fun r => match r with
    | Any.ptrSnapshotEnvironmentBinding (some object) => some (some object)
    | _ => none
  | Op.GetAllPipelineRunsForSnapshotAndScenario => fun r => match r with
    | Any.slicePipelineRun collection => some (some collection)
    | _ => none
  | Op.GetAllBuildPipelineRunsForComponent => fun r => match r with
    | Any.slicePipelineRun collection => some (some collection)
    | _ => none
  | Op.GetAllSnapshots => fun r => match r with
    | Any.sliceSnapshot collection => some (some collection)
    | _ => none
  | Op.GetAutoReleasePlansForApplication => fun r => match r with
    | Any.sliceReleasePlan collection => some (some collection)
    | _ => none

/-- The zero value of the result of an operation: the nil object for a
single-object operation, the empty collection for a listing operation. -/
def Op.zeroValue : (o : Op) → o.Result
  | Op.GetAllEnvironments => some []
  | Op.GetReleasesWithSnapshot => some []
  | Op.GetAllApplicationComponents => some []
  | Op.GetAllSnapshotComponents => some []
  | Op.GetApplicationFromSnapshot => none
  | Op.GetComponentFromSnapshot => none
  | Op.GetComponentFromPipelineRun => none
  | Op.GetApplicationFromPipelineRun => none
  | Op.GetApplicationFromComponent => none
  | Op.GetEnvironmentFromIntegrationPipelineRun => none
  | Op.GetSnapshotFromPipelineRun => none
  | Op.FindAvailableDeploymentTargetClass => none
  | Op.GetAllIntegrationTestScenariosForApplication => some []
  | Op.GetRequiredIntegrationTestScenariosForApplication => some []
  | Op.GetDeploymentTargetClaimForEnvironment => none
  | Op.GetDeploymentTargetForDeploymentTargetClaim => none
  | Op.FindExistingSnapshotEnvironmentBinding => none
  | Op.GetAllPipelineRunsForSnapshotAndScenario => some []
  | Op.GetAllBuildPipelineRunsForComponent => some []
  | Op.GetAllSnapshots => some []
  | Op.GetAutoReleasePlansForApplication => some []

/-- The result types the operations pass to the generic helper. -/
inductive GoType where
  | ptrApplication
  | ptrComponent
  | ptrSnapshot
  | ptrEnvironment
  | ptrRelease
  | ptrDeploymentTargetClass
  | ptrDeploymentTargetClaim
  | ptrDeploymentTarget
  | ptrSnapshotEnvironmentBinding
  | sliceComponent
  | slicePipelineRun
  | sliceIntegrationTestScenario
  | sliceSnapshot
  | sliceReleasePlan
deriving DecidableEq, Repr, Inhabited

/-- The type of stub result an operation expects: the type parameter of its
call of the generic helper. -/
def Op.expects : Op → GoType
  | Op.GetAllEnvironments => GoType.ptrEnvironment
  | Op.GetReleasesWithSnapshot => GoType.ptrRelease
  | Op.GetAllApplicationComponents => GoType.sliceComponent
  | Op.GetAllSnapshotComponents => GoType.sliceComponent
  | Op.GetApplicationFromSnapshot => GoType.ptrApplication
  | Op.GetComponentFromSnapshot => GoType.ptrComponent
  | Op.GetComponentFromPipelineRun => GoType.ptrComponent
  | Op.GetApplicationFromPipelineRun => GoType.ptrApplication
  | Op.GetApplicationFromComponent => GoType.ptrApplication
  | Op.GetEnvironmentFromIntegrationPipelineRun => GoType.ptrEnvironment
  | Op.GetSnapshotFromPipelineRun => GoType.ptrSnapshot
  | Op.FindAvailableDeploymentTargetClass => GoType.ptrDeploymentTargetClass
  | Op.GetAllIntegrationTestScenariosForApplication => GoType.sliceIntegrationTestScenario
  | Op.GetRequiredIntegrationTestScenariosForApplication => GoType.sliceIntegrationTestScenario
  | Op.GetDeploymentTargetClaimForEnvironment => GoType.ptrDeploymentTargetClaim
  | Op.GetDeploymentTargetForDeploymentTargetClaim => GoType.ptrDeploymentTarget
  | Op.FindExistingSnapshotEnvironmentBinding => GoType.ptrSnapshotEnvironmentBinding
  | Op.GetAllPipelineRunsForSnapshotAndScenario => GoType.slicePipelineRun
  | Op.GetAllBuildPipelineRunsForComponent => GoType.slicePipelineRun
  | Op.GetAllSnapshots => GoType.sliceSnapshot
  | Op.GetAutoReleasePlansForApplication => GoType.sliceReleasePlan

/-- Whether the dynamic type of the interface value `r` is `t` (false for the
nil interface, which has no dynamic type). -/
def Any.isOfType (r : Any) : GoType → Bool
  | GoType.ptrApplication => match r with
    | Any.ptrApplication _ => true
    | _ => false
  | GoType.ptrComponent => match r with
    | Any.ptrComponent _ => true
    | _ => false
  | GoType.ptrSnapshot => match r with
    | Any.ptrSnapshot _ => true
    | _ => false
  | GoType.ptrEnvironment => match r with
    | Any.ptrEnvironment _ => true
    | _ => false
  | GoType.ptrRelease => match r with
    | Any.ptrRelease _ => true
    | _ => false
  | GoType.ptrDeploymentTargetClass => match r with
    | Any.ptrDeploymentTargetClass _ => true
    | _ => false
  | GoType.ptrDeploymentTargetClaim => match r with
    | Any.ptrDeploymentTargetClaim _ => true
    | _ => false
  | GoType.ptrDeploymentTarget => match r with
    | Any.ptrDeploymentTarget _ => true
    | _ => false
  | GoType.ptrSnapshotEnvironmentBinding => match r with
    | Any.ptrSnapshotEnvironmentBinding _ => true
    | _ => false
  | GoType.sliceComponent => match r with
    | Any.sliceComponent _ => true
    | _ => false
  | GoType.slicePipelineRun => match r with
    | Any.slicePipelineRun _ => true
    | _ => false
  | GoType.sliceIntegrationTestScenario => match r with
    | Any.sliceIntegrationTestScenario _ => true
    | _ => false
  | GoType.sliceSnapshot => match r with
    | Any.sliceSnapshot _ => true
    | _ => false
  | GoType.sliceReleasePlan => match r with
    | Any.sliceReleasePlan _ => true
    | _ => false

/-- The ordered pairs of distinct operations that are looked up under one and
the same context key. -/
def sharedKeyPairs : List (Op × Op) :=
  [(Op.GetAllEnvironments, Op.GetEnvironmentFromIntegrationPipelineRun),
   (Op.GetEnvironmentFromIntegrationPipelineRun, Op.GetAllEnvironments),
   (Op.GetApplicationFromSnapshot, Op.GetApplicationFromPipelineRun),
   (Op.GetApplicationFromSnapshot, Op.GetApplicationFromComponent),
   (Op.GetApplicationFromPipelineRun, Op.GetApplicationFromSnapshot),
   (Op.GetApplicationFromPipelineRun, Op.GetApplicationFromComponent),
   (Op.GetApplicationFromComponent, Op.GetApplicationFromSnapshot),
   (Op.GetApplicationFromComponent, Op.GetApplicationFromPipelineRun),
   (Op.GetComponentFromSnapshot, Op.GetComponentFromPipelineRun),
   (Op.GetComponentFromPipelineRun, Op.GetComponentFromSnapshot),
   (Op.GetAllPipelineRunsForSnapshotAndScenario, Op.GetAllBuildPipelineRunsForComponent),
   (Op.GetAllBuildPipelineRunsForComponent, Op.GetAllPipelineRunsForSnapshotAndScenario)]

/-! ## Fixtures (objects of `loader_test.go`) -/

/-- Test fixture `hasApp`. -/
def hasApp : Application :=
  { Name := "application-sample", Namespace := "default", Labels := [],
    DisplayName := "application-sample" }

/-- Test fixture `hasComp`. -/
def hasComp : Component :=
  { Name := "component-sample", Namespace := "default", Labels := [],
    Spec := { ComponentName := "component-sample", Application := "application-sample" } }

/-- Test fixture `otherComp`: same namespace and application, not in the snapshot. -/
def otherComp : Component :=
  { Name := "other-component", Namespace := "default", Labels := [],
    Spec := { ComponentName := "other-component", Application := "application-sample" } }

/-- Test fixture `hasSnapshot`. -/
def hasSnapshot : Snapshot :=
  { Name := "snapshot-sample", Namespace := "default",
    Labels := [("test.appstudio.openshift.io/type", "component"),
               ("appstudio.openshift.io/component", "component-sample")],
    Spec := { Application := "application-sample",
              Components := [{ Name := "component-sample",
                               ContainerImage := "quay.io/redhat-appstudio/sample-image" }] } }

/-- Test fixture `hasEnv`. -/
def hasEnv : Environment :=
  { Name := "test-env", Namespace := "default", Labels := [], ClaimName := "dtc-1" }

/-- Test fixture `releasePlanNoLabel`. -/
def releasePlanNoLabel : ReleasePlan :=
  { Name := "test-release-plan-no-label", Namespace := "default", Labels := [],
    Spec := { Application := "application-sample", Target := "default" } }

/-- Test fixture `releasePlanFalseLabel`. -/
def releasePlanFalseLabel : ReleasePlan :=
  { Name := "test-release-plan-false-label", Namespace := "default",
    Labels := [("release.appstudio.openshift.io/auto-release", "false")],
    Spec := { Application := "application-sample", Target := "default" } }

/-- A store holding the application, both components and both release plans. -/
def k8sClient : Client :=
  { Applications := [hasApp], Components := [hasComp, otherComp], PipelineRuns := [],
    DeploymentTargetClasses := [], ReleasePlans := [releasePlanNoLabel, releasePlanFalseLabel],
    Fault := none }

/-- Test fixture `integrationTestScenario`. -/
def integrationTestScenario : IntegrationTestScenario :=
  { Name := "example-pass", Namespace := "default",
    Labels := [("test.appstudio.openshift.io/optional", "false")],
    Application := "application-sample" }

/-- A test scenario of another name. -/
def otherScenario : IntegrationTestScenario :=
  { Name := "example-fail", Namespace := "default", Labels := [],
    Application := "application-sample" }

/-- Test fixture `integrationPipelineRun`. -/
def integrationPipelineRun : PipelineRun :=
  { Name := "pipelinerun-component-sample", Namespace := "default",
    Labels := [("pipelines.appstudio.openshift.io/type", "test"),
               ("appstudio.openshift.io/snapshot", "snapshot-sample"),
               ("test.appstudio.openshift.io/scenario", "example-pass"),
               ("appstudio.openshift.io/environment", "test-env"),
               ("appstudio.openshift.io/application", "application-sample"),
               ("appstudio.openshift.io/component", "component-sample")],
    PipelineRefName := "component-pipeline-pass" }

/-- Test fixture `buildPipelineRun`. -/
def buildPipelineRun : PipelineRun :=
  { Name := "pipelinerun-sample", Namespace := "default",
    Labels := [("pipelines.appstudio.openshift.io/type", "build"),
               ("pipelines.openshift.io/used-by", "build-cloud"),
               ("pipelines.openshift.io/runtime", "nodejs"),
               ("pipelines.openshift.io/strategy", "s2i"),
               ("appstudio.openshift.io/component", "component-sample"),
               ("appstudio.openshift.io/application", "application-sample"),
               ("appstudio.openshift.io/snapshot", "snapshot-sample"),
               ("appstudio.openshift.io/environment", "test-env"),
               ("test.appstudio.openshift.io/scenario", "example-pass")],
    PipelineRefName := "build-pipeline-pass" }

/-- A further selection with which the model meets the assertion of the test
(one PipelineRun returned on its store): the PipelineRuns of pipeline type
`"test"`. -/
def isTestPipelineRun (pipelineRun : PipelineRun) : Bool :=
  decide (pipelineRun.label PipelineTypeLabel = some "test")

/-- Test fixture `deploymentTargetClass`. -/
def deploymentTargetClass : DeploymentTargetClass :=
  { Name := "dtcls-1", Namespace := "", Labels := [],
    Provisioner := "appstudio.redhat.com/devsandbox" }

/-- A class of another provisioner. -/
def otherDeploymentTargetClass : DeploymentTargetClass :=
  { Name := "dtcls-0", Namespace := "", Labels := [], Provisioner := "example.com/other" }

/-- Provisioner criteria of the fixtures: the sandbox provisioner of the test. -/
def isDevsandbox (cls : DeploymentTargetClass) : Bool :=
  decide (cls.Provisioner = "appstudio.redhat.com/devsandbox")

/-- A store holding the application, the two PipelineRuns the test creates
(both carry the snapshot and scenario labels) and two DeploymentTargetClasses. -/
def pipelineClient : Client :=
  { Applications := [hasApp], Components := [hasComp],
    PipelineRuns := [buildPipelineRun, integrationPipelineRun],
    DeploymentTargetClasses := [otherDeploymentTargetClass, deploymentTargetClass],
    ReleasePlans := [], Fault := none }

/-- A stub for `GetAllSnapshots` that registers an error and no value. -/
def listFailedStub : MockData :=
  { ContextKey := AllSnapshotsContextKey, Err := some (ErrorValue.message "list failed"),
    Resource := Any.nil }

/-- A stub under `EnvironmentContextKey` registering `hasEnv`. -/
def environmentStub : MockData :=
  { ContextKey := EnvironmentContextKey, Err := none, Resource := Any.ptrEnvironment (some hasEnv) }

/-- A stub under `ApplicationContextKey` registering an `Application` struct
value where a pointer is expected. -/
def wrongTypeStub : MockData :=
  { ContextKey := ApplicationContextKey, Err := none, Resource := Any.application hasApp }

/-- A second stub under `EnvironmentContextKey`, registering an error only. -/
def environmentErrorStub : MockData :=
  { ContextKey := EnvironmentContextKey, Err := some (ErrorValue.notFound "Environment"),
    Resource := Any.nil }

/-- A wrapped loader that finds nothing: every single-object operation fails
with `NotFound`, every listing returns an empty collection. -/
def emptyLoader : ObjectLoader where
  GetAllEnvironments := fun _ _ _ => Outcome.returns (some []) none
  GetReleasesWithSnapshot := fun _ _ _ => Outcome.returns (some []) none
  GetAllApplicationComponents := fun _ _ _ => Outcome.returns (some []) none
  GetAllSnapshotComponents := fun _ _ _ => Outcome.returns (some []) none
  GetApplicationFromSnapshot := fun _ _ _ => Outcome.returns none (some (ErrorValue.notFound "Application"))
  GetComponentFromSnapshot := fun _ _ _ => Outcome.returns none (some (ErrorValue.notFound "Component"))
  GetComponentFromPipelineRun := fun _ _ _ => Outcome.returns none (some (ErrorValue.notFound "Component"))
  GetApplicationFromPipelineRun := fun _ _ _ => Outcome.returns none (some (ErrorValue.notFound "Application"))
  GetApplicationFromComponent := fun _ _ _ => Outcome.returns none (some (ErrorValue.notFound "Application"))
  GetEnvironmentFromIntegrationPipelineRun := fun _ _ _ => Outcome.returns none (some (ErrorValue.notFound "Environment"))
  GetSnapshotFromPipelineRun := fun _ _ _ => Outcome.returns none (some (ErrorValue.notFound "Snapshot"))
  FindAvailableDeploymentTargetClass := fun _ _ => Outcome.returns none (some (ErrorValue.notFound "DeploymentTargetClass"))
  GetAllIntegrationTestScenariosForApplication := fun _ _ _ => Outcome.returns (some []) none
  GetRequiredIntegrationTestScenariosForApplication := fun _ _ _ => Outcome.returns (some []) none
  GetDeploymentTargetClaimForEnvironment := fun _ _ _ => Outcome.returns none (some (ErrorValue.notFound "DeploymentTargetClaim"))
  GetDeploymentTargetForDeploymentTargetClaim := fun _ _ _ => Outcome.returns none (some (ErrorValue.notFound "DeploymentTarget"))
  FindExistingSnapshotEnvironmentBinding := fun _ _ _ _ => Outcome.returns none (some (ErrorValue.notFound "SnapshotEnvironmentBinding"))
  GetAllPipelineRunsForSnapshotAndScenario := fun _ _ _ _ => Outcome.returns (some []) none
  GetAllBuildPipelineRunsForComponent := fun _ _ _ => Outcome.returns (some []) none
  GetAllSnapshots := fun _ _ _ => Outcome.returns (some []) none
  GetAutoReleasePlansForApplication := fun _ _ _ => Outcome.returns (some []) none

/-! ## Lookups in a mocked context -/

theorem GetMockedContext_nil (ctx : Context) : GetMockedContext ctx [] = ctx := rfl

theorem GetMockedContext_cons (ctx : Context) (d : MockData) (data : List MockData) :
    GetMockedContext ctx (d :: data)
      = GetMockedContext (Context.withValue ctx (Key.contextKey d.ContextKey) (CtxValue.mockData d)) data := rfl

theorem GetMockedContext_append (ctx : Context) (a b : List MockData) :
    GetMockedContext ctx (a ++ b) = GetMockedContext (GetMockedContext ctx a) b := by
  simp [GetMockedContext, List.foldl_append]

theorem GetMockedContext_concat (ctx : Context) (a : List MockData) (d : MockData) :
    GetMockedContext ctx (a ++ [d])
      = Context.withValue (GetMockedContext ctx a) (Key.contextKey d.ContextKey) (CtxValue.mockData d) := by
  rw [GetMockedContext_append]; rfl

/-- A key that no entry of the list carries is looked up in the parent. -/
theorem Value_GetMockedContext_of_forall_ne (ctx : Context) (data : List MockData) (K : Key)
    (h : ∀ d ∈ data, Key.contextKey d.ContextKey ≠ K) :
    (GetMockedContext ctx data).Value K = ctx.Value K := by
  induction data generalizing ctx with
  | nil => rfl
  | cons d ds ih =>
    rw [GetMockedContext_cons, ih _ (fun e he => h e (List.mem_cons_of_mem _ he))]
    simp [Context.Value, h d (List.mem_cons_self _ _)]

/-- An entry whose key no later entry carries is the value under its key. -/
theorem Value_GetMockedContext_of_last (ctx : Context) (a b : List MockData) (d : MockData)
    (h : ∀ e ∈ b, e.ContextKey ≠ d.ContextKey) :
    (GetMockedContext ctx (a ++ d :: b)).Value (Key.contextKey d.ContextKey) = CtxValue.mockData d := by
  rw [GetMockedContext_append, GetMockedContext_cons, Value_GetMockedContext_of_forall_ne]
  · simp [Context.Value]
  · intro e he hk
    exact h e he (by injection hk)

/-- The helper on a context holding a `MockData` under the key. -/
theorem getMocked_of_mockData {T : Type} (tp : TypeParam T) (ctx : Context) (k : contextKey)
    (z : T) (d : MockData) (h : ctx.Value (Key.contextKey k) = CtxValue.mockData d) :
    getMockedResourceAndErrorFromContext tp ctx k z
      = match (if d.Resource = Any.nil then some tp.zero else tp.assert d.Resource) with
        | none => Outcome.panics Panic.typeAssertion
        | some resource => Outcome.returns resource d.Err := by
  unfold getMockedResourceAndErrorFromContext
  simp only [h, reduceCtorEq, if_false, CtxValue.asMockData, ne_eq, ite_not]
  split
  · rfl
  · cases hd : d.Err <;> simp

/-- What a mock method does depends on the context only through the value
under the key of the method, once that value is non-nil. -/
theorem mockLoader.call_congr (l l2 : mockLoader) (o : Op) (c c2 : Client) (ctx ctx2 : Context)
    (i i2 : o.Input)
    (hv : ctx.Value (Key.contextKey o.key) = ctx2.Value (Key.contextKey o.key))
    (hn : ctx.Value (Key.contextKey o.key) ≠ CtxValue.nil) :
    l.call o c ctx i = l2.call o c2 ctx2 i2 := by
  have hn2 : ctx2.Value (Key.contextKey o.key) ≠ CtxValue.nil := hv ▸ hn
  cases o <;>
    simp only [Op.key] at hv hn hn2 <;>
    simp [mockLoader.call, mockLoader.GetAllEnvironments, mockLoader.GetReleasesWithSnapshot,
      mockLoader.GetAllApplicationComponents, mockLoader.GetAllSnapshotComponents,
      mockLoader.GetApplicationFromSnapshot, mockLoader.GetComponentFromSnapshot,
      mockLoader.GetComponentFromPipelineRun, mockLoader.GetApplicationFromPipelineRun,
      mockLoader.GetApplicationFromComponent, mockLoader.GetEnvironmentFromIntegrationPipelineRun,
      mockLoader.GetSnapshotFromPipelineRun, mockLoader.FindAvailableDeploymentTargetClass,
      mockLoader.GetAllIntegrationTestScenariosForApplication,
      mockLoader.GetRequiredIntegrationTestScenariosForApplication,
      mockLoader.GetDeploymentTargetClaimForEnvironment,
      mockLoader.GetDeploymentTargetForDeploymentTargetClaim,
      mockLoader.FindExistingSnapshotEnvironmentBinding,
      mockLoader.GetAllPipelineRunsForSnapshotAndScenario,
      mockLoader.GetAllBuildPipelineRunsForComponent, mockLoader.GetAllSnapshots,
      mockLoader.GetAutoReleasePlansForApplication,
      getMockedResourceAndErrorFromContext, hn, hn2, ← hv]

/-- On a miss a mock method is the method of the wrapped loader. -/
theorem mockLoader.call_of_nil (l : mockLoader) (o : Op) (c : Client) (ctx : Context)
    (i : o.Input) (h : ctx.Value (Key.contextKey o.key) = CtxValue.nil) :
    l.call o c ctx i = l.loader.call o c ctx i := by
  cases o <;>
    simp only [Op.key] at h <;>
    simp [mockLoader.call, ObjectLoader.call, mockLoader.GetAllEnvironments,
      mockLoader.GetReleasesWithSnapshot,
      mockLoader.GetAllApplicationComponents, mockLoader.GetAllSnapshotComponents,
      mockLoader.GetApplicationFromSnapshot, mockLoader.GetComponentFromSnapshot,
      mockLoader.GetComponentFromPipelineRun, mockLoader.GetApplicationFromPipelineRun,
      mockLoader.GetApplicationFromComponent, mockLoader.GetEnvironmentFromIntegrationPipelineRun,
      mockLoader.GetSnapshotFromPipelineRun, mockLoader.FindAvailableDeploymentTargetClass,
      mockLoader.GetAllIntegrationTestScenariosForApplication,
      mockLoader.GetRequiredIntegrationTestScenariosForApplication,
      mockLoader.GetDeploymentTargetClaimForEnvironment,
      mockLoader.GetDeploymentTargetForDeploymentTargetClaim,
      mockLoader.FindExistingSnapshotEnvironmentBinding,
      mockLoader.GetAllPipelineRunsForSnapshotAndScenario,
      mockLoader.GetAllBuildPipelineRunsForComponent, mockLoader.GetAllSnapshots,
      mockLoader.GetAutoReleasePlansForApplication, h]

/-! ## Delegation and stub hits -/

/-- C1 (delegation on miss): for every operation of the mock loader, every
client, every input and every context that holds no value under the key of the
operation, the operation returns exactly the outcome of the same operation of
the wrapped loader called with the same client, context and inputs. -/
theorem delegation_on_miss (l : mockLoader) (o : Op) (c : Client) (ctx : Context) (i : o.Input)
    (h : ctx.Value (Key.contextKey o.key) = CtxValue.nil) :
    l.call o c ctx i = l.loader.call o c ctx i :=
  mockLoader.call_of_nil l o c ctx i h

theorem delegation_on_miss_witness :
    Context.background.Value (Key.contextKey Op.GetApplicationFromSnapshot.key) = CtxValue.nil ∧
    (NewMockLoader emptyLoader).call Op.GetApplicationFromSnapshot k8sClient Context.background
        (some hasSnapshot)
      = (NewMockLoader emptyLoader).loader.call Op.GetApplicationFromSnapshot k8sClient
          Context.background (some hasSnapshot) :=
  ⟨rfl, delegation_on_miss (NewMockLoader emptyLoader) Op.GetApplicationFromSnapshot k8sClient
    Context.background (some hasSnapshot) rfl⟩

/-- C2 (stub hit): when the context was built by `GetMockedContext` from a list
holding an entry `d` under the key of operation `o` (and no later entry under
that key), and the registered `d.Resource` is a non-nil value of the type `o`
expects, then for every wrapped loader, client and input the operation returns
the registered value (`v`, as `Op.stubbedBy` reads it off the resource)
together with the registered error `d.Err`. -/
theorem stub_hit (l : mockLoader) (o : Op) (c : Client) (ctx : Context) (i : o.Input)
    (a b : List MockData) (d : MockData) (v : o.Result)
    (hk : d.ContextKey = o.key) (hr : o.stubbedBy d.Resource = some v)
    (hb : ∀ e ∈ b, e.ContextKey ≠ d.ContextKey) :
    l.call o c (GetMockedContext ctx (a ++ d :: b)) i = Outcome.returns v d.Err := by
  have hv := Value_GetMockedContext_of_last ctx a b d hb
  rw [hk] at hv
  obtain ⟨k, e, r⟩ := d
  simp only at hr hv ⊢
  cases o <;> simp only [Op.stubbedBy] at hr <;> split at hr <;>
    simp only [Option.some.injEq, reduceCtorEq] at hr <;> subst hr <;>
    simp only [Op.key] at hv <;>
    simp [mockLoader.call, mockLoader.GetAllEnvironments, mockLoader.GetReleasesWithSnapshot,
      mockLoader.GetAllApplicationComponents, mockLoader.GetAllSnapshotComponents,
      mockLoader.GetApplicationFromSnapshot, mockLoader.GetComponentFromSnapshot,
      mockLoader.GetComponentFromPipelineRun, mockLoader.GetApplicationFromPipelineRun,
      mockLoader.GetApplicationFromComponent, mockLoader.GetEnvironmentFromIntegrationPipelineRun,
      mockLoader.GetSnapshotFromPipelineRun, mockLoader.FindAvailableDeploymentTargetClass,
      mockLoader.GetAllIntegrationTestScenariosForApplication,
      mockLoader.GetRequiredIntegrationTestScenariosForApplication,
      mockLoader.GetDeploymentTargetClaimForEnvironment,
      mockLoader.GetDeploymentTargetForDeploymentTargetClaim,
      mockLoader.FindExistingSnapshotEnvironmentBinding,
      mockLoader.GetAllPipelineRunsForSnapshotAndScenario,
      mockLoader.GetAllBuildPipelineRunsForComponent, mockLoader.GetAllSnapshots,
      mockLoader.GetAutoReleasePlansForApplication,
      getMocked_of_mockData _ _ _ _ _ hv, hv,
      TypeParam.ptrApplication, TypeParam.ptrComponent, TypeParam.ptrSnapshot,
      TypeParam.ptrEnvironment, TypeParam.ptrRelease, TypeParam.ptrDeploymentTargetClass,
      TypeParam.ptrDeploymentTargetClaim, TypeParam.ptrDeploymentTarget,
      TypeParam.ptrSnapshotEnvironmentBinding, TypeParam.sliceComponent,
      TypeParam.slicePipelineRun, TypeParam.sliceIntegrationTestScenario,
      TypeParam.sliceSnapshot, TypeParam.sliceReleasePlan]

theorem stub_hit_witness :
    (Op.GetAllApplicationComponents.stubbedBy (Any.sliceComponent [hasComp]) = some (some [hasComp])) ∧
    (NewMockLoader emptyLoader).call Op.GetAllApplicationComponents k8sClient
        (GetMockedContext Context.background
          ([] ++ { ContextKey := ApplicationComponentsContextKey,
                   Err := some (ErrorValue.message "stubbed"),
                   Resource := Any.sliceComponent [hasComp] } :: []))
        (some hasApp)
      = Outcome.returns (some [hasComp]) (some (ErrorValue.message "stubbed")) :=
  ⟨rfl, stub_hit (NewMockLoader emptyLoader) Op.GetAllApplicationComponents k8sClient
    Context.background (some hasApp) [] []
    { ContextKey := ApplicationComponentsContextKey, Err := some (ErrorValue.message "stubbed"),
      Resource := Any.sliceComponent [hasComp] }
    (some [hasComp]) rfl rfl (fun _ h => absurd h (List.not_mem_nil _))⟩

/-! ## Stubs that carry an error and no value -/

/-- C3 (stub override), evaluated where the code departs from it: with a stub
under `EnvironmentContextKey` (resp. `ReleaseContextKey`) that registers an
error and no result value, `GetAllEnvironments` (resp.
`GetReleasesWithSnapshot`) does not return the registered error: it panics on
the dereference of the nil pointer the helper hands back. -/
theorem error_only_stub_panics_in_wrapping_operations (l : mockLoader) (c : Client)
    (ctx : Context) (E : ErrorValue) (application : Option Application)
    (snapshot : Option Snapshot) :
    l.GetAllEnvironments c
        (GetMockedContext ctx
          [{ ContextKey := EnvironmentContextKey, Err := some E, Resource := Any.nil }])
        application
      = Outcome.panics Panic.nilDereference ∧
    l.GetReleasesWithSnapshot c
        (GetMockedContext ctx
          [{ ContextKey := ReleaseContextKey, Err := some E, Resource := Any.nil }])
        snapshot
      = Outcome.panics Panic.nilDereference := by
  constructor <;>
    simp [mockLoader.GetAllEnvironments, mockLoader.GetReleasesWithSnapshot, GetMockedContext,
      Context.Value, getMockedResourceAndErrorFromContext, CtxValue.asMockData,
      TypeParam.ptrEnvironment, TypeParam.ptrRelease]

/-- C4, the claim refuted on the code: with a stub under `ApplicationContextKey`
that registers neither a value nor an error, `GetApplicationFromSnapshot` does
not panic: it returns the nil object and the nil error. -/
theorem unset_stub_returns_silently :
    (NewMockLoader emptyLoader).call Op.GetApplicationFromSnapshot k8sClient
        (GetMockedContext Context.background
          [{ ContextKey := ApplicationContextKey, Err := none, Resource := Any.nil }])
        (some hasSnapshot)
      = Outcome.returns none none ∧
    ∀ p, (NewMockLoader emptyLoader).call Op.GetApplicationFromSnapshot k8sClient
        (GetMockedContext Context.background
          [{ ContextKey := ApplicationContextKey, Err := none, Resource := Any.nil }])
        (some hasSnapshot)
      ≠ Outcome.panics p := by
  constructor
  · rfl
  · intro p h
    have h2 : (Outcome.returns none none : Outcome (Option Application)) = Outcome.panics p := h
    exact Outcome.noConfusion h2

/-- C4 as amended: for every operation other than `GetAllEnvironments` and
`GetReleasesWithSnapshot`, when the context holds under the key of the
operation a `MockData` whose `Resource` is nil, the call does not panic: it
returns the zero value of its result type (nil object, empty collection)
together with the registered `Err`, for every wrapped loader, client and input. -/
theorem unset_stub_returns_zero_value (l : mockLoader) (o : Op) (c : Client) (ctx : Context)
    (i : o.Input) (d : MockData)
    (h1 : o ≠ Op.GetAllEnvironments) (h2 : o ≠ Op.GetReleasesWithSnapshot)
    (hv : ctx.Value (Key.contextKey o.key) = CtxValue.mockData d)
    (hr : d.Resource = Any.nil) :
    l.call o c ctx i = Outcome.returns o.zeroValue d.Err := by
  cases o <;> first | exact absurd rfl h1 | exact absurd rfl h2 | skip
  all_goals
    simp only [Op.key] at hv
    simp [mockLoader.call, mockLoader.GetAllEnvironments, mockLoader.GetReleasesWithSnapshot,
      mockLoader.GetAllApplicationComponents, mockLoader.GetAllSnapshotComponents,
      mockLoader.GetApplicationFromSnapshot, mockLoader.GetComponentFromSnapshot,
      mockLoader.GetComponentFromPipelineRun, mockLoader.GetApplicationFromPipelineRun,
      mockLoader.GetApplicationFromComponent, mockLoader.GetEnvironmentFromIntegrationPipelineRun,
      mockLoader.GetSnapshotFromPipelineRun, mockLoader.FindAvailableDeploymentTargetClass,
      mockLoader.GetAllIntegrationTestScenariosForApplication,
      mockLoader.GetRequiredIntegrationTestScenariosForApplication,
      mockLoader.GetDeploymentTargetClaimForEnvironment,
      mockLoader.GetDeploymentTargetForDeploymentTargetClaim,
      mockLoader.FindExistingSnapshotEnvironmentBinding,
      mockLoader.GetAllPipelineRunsForSnapshotAndScenario,
      mockLoader.GetAllBuildPipelineRunsForComponent, mockLoader.GetAllSnapshots,
      mockLoader.GetAutoReleasePlansForApplication,
      getMocked_of_mockData _ _ _ _ _ hv, hv, hr, Op.zeroValue,
      TypeParam.ptrApplication, TypeParam.ptrComponent, TypeParam.ptrSnapshot,
      TypeParam.ptrEnvironment, TypeParam.ptrRelease, TypeParam.ptrDeploymentTargetClass,
      TypeParam.ptrDeploymentTargetClaim, TypeParam.ptrDeploymentTarget,
      TypeParam.ptrSnapshotEnvironmentBinding, TypeParam.sliceComponent,
      TypeParam.slicePipelineRun, TypeParam.sliceIntegrationTestScenario,
      TypeParam.sliceSnapshot, TypeParam.sliceReleasePlan]

theorem unset_stub_returns_zero_value_witness :
    (Context.withValue Context.background (Key.contextKey AllSnapshotsContextKey)
        (CtxValue.mockData listFailedStub)).Value (Key.contextKey Op.GetAllSnapshots.key)
      = CtxValue.mockData listFailedStub ∧
    listFailedStub.Resource = Any.nil ∧
    (NewMockLoader emptyLoader).call Op.GetAllSnapshots k8sClient
        (Context.withValue Context.background (Key.contextKey AllSnapshotsContextKey)
          (CtxValue.mockData listFailedStub))
        (some hasApp)
      = Outcome.returns (some []) (some (ErrorValue.message "list failed")) :=
  ⟨rfl, rfl, unset_stub_returns_zero_value (NewMockLoader emptyLoader) Op.GetAllSnapshots k8sClient
    (Context.withValue Context.background (Key.contextKey AllSnapshotsContextKey)
      (CtxValue.mockData listFailedStub))
    (some hasApp) listFailedStub (by decide) (by decide) rfl rfl⟩

/-! ## Stubs and context keys -/

/-- C5, the claim refuted on the code: `GetAllEnvironments` and
`GetEnvironmentFromIntegrationPipelineRun` are distinct operations looked up
under the same key, and the one stub `environmentStub` changes the result of
both: without it each returns what the wrapped loader returns, with it each
returns the registered environment. -/
theorem shared_key_stub_changes_both_operations :
    Op.GetAllEnvironments ≠ Op.GetEnvironmentFromIntegrationPipelineRun ∧
    Op.GetAllEnvironments.key = Op.GetEnvironmentFromIntegrationPipelineRun.key ∧
    (NewMockLoader emptyLoader).call Op.GetAllEnvironments k8sClient Context.background
        (some hasApp) = Outcome.returns (some []) none ∧
    (NewMockLoader emptyLoader).call Op.GetEnvironmentFromIntegrationPipelineRun k8sClient
        Context.background none = Outcome.returns none (some (ErrorValue.notFound "Environment")) ∧
    (NewMockLoader emptyLoader).call Op.GetAllEnvironments k8sClient
        (GetMockedContext Context.background [environmentStub])
        (some hasApp) = Outcome.returns (some [hasEnv]) none ∧
    (NewMockLoader emptyLoader).call Op.GetEnvironmentFromIntegrationPipelineRun k8sClient
        (GetMockedContext Context.background [environmentStub])
        none = Outcome.returns (some hasEnv) none := by
  refine ⟨by decide, rfl, rfl, rfl, rfl, rfl⟩

/-- C5 as amended: stubbing is per context key. Two operations are looked up
under the same key exactly when they are the same operation or one of the pairs
of `sharedKeyPairs` (the two Environment operations, the three
`GetApplicationFrom...`, the two `GetComponentFrom...`, the two PipelineRun
listings). A stub registered under the key of `o1` never changes what an
operation `o2` with a different key does: if `o2` was stubbed it returns the
same outcome as before, and if it was not it still calls the wrapped loader. -/
theorem stubbing_is_per_context_key (o1 o2 : Op) :
    (o1.key = o2.key ↔ o1 = o2 ∨ (o1, o2) ∈ sharedKeyPairs) ∧
    (o1.key ≠ o2.key →
      ∀ (l : mockLoader) (c : Client) (ctx : Context) (i : o2.Input) (d : MockData),
        d.ContextKey = o1.key →
        (ctx.Value (Key.contextKey o2.key) ≠ CtxValue.nil →
          l.call o2 c (GetMockedContext ctx [d]) i = l.call o2 c ctx i) ∧
        (ctx.Value (Key.contextKey o2.key) = CtxValue.nil →
          l.call o2 c (GetMockedContext ctx [d]) i
            = l.loader.call o2 c (GetMockedContext ctx [d]) i)) := by
  constructor
  · cases o1 <;> cases o2 <;> simp [Op.key, sharedKeyPairs]
  · intro hne l c ctx i d hd
    have hv : (GetMockedContext ctx [d]).Value (Key.contextKey o2.key)
        = ctx.Value (Key.contextKey o2.key) := by
      apply Value_GetMockedContext_of_forall_ne
      intro e he hk
      rw [List.mem_singleton] at he
      subst he
      injection hk with hk
      exact hne (hd ▸ hk)
    constructor
    · intro hn
      exact mockLoader.call_congr l l o2 c c _ _ i i hv (hv ▸ hn)
    · intro hn
      exact mockLoader.call_of_nil l o2 c _ i (hv.trans hn)

theorem stubbing_is_per_context_key_witness :
    Op.GetAllEnvironments.key ≠ Op.GetAllSnapshots.key ∧
    environmentStub.ContextKey = Op.GetAllEnvironments.key ∧
    Context.background.Value (Key.contextKey Op.GetAllSnapshots.key) = CtxValue.nil ∧
    (NewMockLoader emptyLoader).call Op.GetAllSnapshots k8sClient
        (GetMockedContext Context.background [environmentStub]) (some hasApp)
      = (NewMockLoader emptyLoader).loader.call Op.GetAllSnapshots k8sClient
        (GetMockedContext Context.background [environmentStub]) (some hasApp) :=
  ⟨by decide, rfl, rfl,
    ((stubbing_is_per_context_key Op.GetAllEnvironments Op.GetAllSnapshots).2 (by decide)
      (NewMockLoader emptyLoader) k8sClient Context.background (some hasApp) environmentStub
      rfl).2 rfl⟩

/-- An entry of a list with pairwise distinct keys is the value under its key. -/
theorem Value_GetMockedContext_of_mem_nodup (ctx : Context) (data : List MockData)
    (hd : (data.map (fun d => d.ContextKey)).Nodup) (entry : MockData) (he : entry ∈ data) :
    (GetMockedContext ctx data).Value (Key.contextKey entry.ContextKey)
      = CtxValue.mockData entry := by
  obtain ⟨a, b, rfl⟩ := List.append_of_mem he
  apply Value_GetMockedContext_of_last
  intro e heb hk
  rw [List.map_append, List.map_cons, List.nodup_append] at hd
  have h1 := (List.nodup_cons.mp hd.2.1).1
  exact h1 (hk ▸ List.mem_map_of_mem (fun d => d.ContextKey) heb)

/-- C6 (composability of `GetMockedContext`): for every parent context and
every list of entries with pairwise distinct keys, (1) every entry is the value
found under its own key in the resulting context, (2) the lookups of the
resulting context are the same for every reordering of the list, and (3) an
operation keyed by an entry behaves exactly as it does when that entry is the
only registered one, so it returns the value and error of its own entry. -/
theorem GetMockedContext_composable (ctx : Context) (data : List MockData)
    (hd : (data.map (fun d => d.ContextKey)).Nodup) :
    (∀ entry ∈ data,
      (GetMockedContext ctx data).Value (Key.contextKey entry.ContextKey)
        = CtxValue.mockData entry) ∧
    (∀ data2 : List MockData, data2.Perm data →
      ∀ K : Key, (GetMockedContext ctx data2).Value K = (GetMockedContext ctx data).Value K) ∧
    (∀ (l : mockLoader) (o : Op) (c : Client) (i : o.Input) (entry : MockData),
      entry ∈ data → entry.ContextKey = o.key →
      l.call o c (GetMockedContext ctx data) i
        = l.call o c (GetMockedContext Context.background [entry]) i) := by
  refine ⟨Value_GetMockedContext_of_mem_nodup ctx data hd, ?_, ?_⟩
  · intro data2 hp K
    have hd2 : (data2.map (fun d => d.ContextKey)).Nodup :=
      (List.Perm.nodup_iff (hp.map _)).mpr hd
    by_cases hK : ∃ entry ∈ data, Key.contextKey entry.ContextKey = K
    · obtain ⟨entry, he, rfl⟩ := hK
      rw [Value_GetMockedContext_of_mem_nodup ctx data hd entry he,
        Value_GetMockedContext_of_mem_nodup ctx data2 hd2 entry (hp.mem_iff.mpr he)]
    · have h1 : ∀ e ∈ data, Key.contextKey e.ContextKey ≠ K := fun e he hk => hK ⟨e, he, hk⟩
      have h2 : ∀ e ∈ data2, Key.contextKey e.ContextKey ≠ K :=
        fun e he hk => hK ⟨e, hp.mem_iff.mp he, hk⟩
      rw [Value_GetMockedContext_of_forall_ne ctx data K h1,
        Value_GetMockedContext_of_forall_ne ctx data2 K h2]
  · intro l o c i entry he hk
    have h1 := Value_GetMockedContext_of_mem_nodup ctx data hd entry he
    have h2 : (GetMockedContext Context.background [entry]).Value
        (Key.contextKey entry.ContextKey) = CtxValue.mockData entry := by
      simp [GetMockedContext, Context.Value]
    rw [hk] at h1 h2
    exact mockLoader.call_congr l l o c c _ _ i i (h1.trans h2.symm) (by rw [h1]; simp)

theorem GetMockedContext_composable_witness :
    ([environmentStub, listFailedStub].map (fun d => d.ContextKey)).Nodup ∧
    (GetMockedContext Context.background [environmentStub, listFailedStub]).Value
        (Key.contextKey environmentStub.ContextKey) = CtxValue.mockData environmentStub :=
  ⟨by decide,
    (GetMockedContext_composable Context.background [environmentStub, listFailedStub]
      (by decide)).1 environmentStub (List.mem_cons_self _ _)⟩

/-- C7 (frame of `GetMockedContext`): for every parent context, every list of
entries and every key `K` that is the `ContextKey` of no entry of the list, the
resulting context holds under `K` what the parent holds; and every operation
keyed by such a `K` that was unstubbed in the parent still returns the outcome
of the wrapped loader in the resulting context. -/
theorem GetMockedContext_frame (ctx : Context) (data : List MockData) (K : Key)
    (hK : ∀ d ∈ data, Key.contextKey d.ContextKey ≠ K) :
    (GetMockedContext ctx data).Value K = ctx.Value K ∧
    (∀ (l : mockLoader) (o : Op) (c : Client) (i : o.Input),
      Key.contextKey o.key = K → ctx.Value K = CtxValue.nil →
      l.call o c (GetMockedContext ctx data) i
        = l.loader.call o c (GetMockedContext ctx data) i) := by
  have hv := Value_GetMockedContext_of_forall_ne ctx data K hK
  refine ⟨hv, ?_⟩
  intro l o c i hk hn
  subst hk
  exact mockLoader.call_of_nil l o c _ i (hv.trans hn)

theorem GetMockedContext_frame_witness :
    (∀ d ∈ [environmentStub, listFailedStub],
      Key.contextKey d.ContextKey ≠ Key.contextKey ApplicationContextKey) ∧
    (GetMockedContext Context.background [environmentStub, listFailedStub]).Value
        (Key.contextKey ApplicationContextKey)
      = Context.background.Value (Key.contextKey ApplicationContextKey) :=
  ⟨by decide,
    (GetMockedContext_frame Context.background [environmentStub, listFailedStub]
      (Key.contextKey ApplicationContextKey) (by decide)).1⟩

/-- C8 (type check of the registered value): for every operation, when the
context holds under the key of the operation a `MockData` whose `Resource` is
non-nil and not of the type the operation expects, the call panics on the type
assertion, for every wrapped loader, client and input; no value is returned. -/
theorem wrong_type_stub_panics (l : mockLoader) (o : Op) (c : Client) (ctx : Context)
    (i : o.Input) (d : MockData)
    (hv : ctx.Value (Key.contextKey o.key) = CtxValue.mockData d)
    (hn : d.Resource ≠ Any.nil) (ht : d.Resource.isOfType o.expects = false) :
    l.call o c ctx i = Outcome.panics Panic.typeAssertion := by
  obtain ⟨k, e, r⟩ := d
  simp only at hn ht
  cases o <;> simp only [Op.key] at hv <;>
    simp only [mockLoader.call, mockLoader.GetAllEnvironments, mockLoader.GetReleasesWithSnapshot,
      mockLoader.GetAllApplicationComponents, mockLoader.GetAllSnapshotComponents,
      mockLoader.GetApplicationFromSnapshot, mockLoader.GetComponentFromSnapshot,
      mockLoader.GetComponentFromPipelineRun, mockLoader.GetApplicationFromPipelineRun,
      mockLoader.GetApplicationFromComponent, mockLoader.GetEnvironmentFromIntegrationPipelineRun,
      mockLoader.GetSnapshotFromPipelineRun, mockLoader.FindAvailableDeploymentTargetClass,
      mockLoader.GetAllIntegrationTestScenariosForApplication,
      mockLoader.GetRequiredIntegrationTestScenariosForApplication,
      mockLoader.GetDeploymentTargetClaimForEnvironment,
      mockLoader.GetDeploymentTargetForDeploymentTargetClaim,
      mockLoader.FindExistingSnapshotEnvironmentBinding,
      mockLoader.GetAllPipelineRunsForSnapshotAndScenario,
      mockLoader.GetAllBuildPipelineRunsForComponent, mockLoader.GetAllSnapshots,
      mockLoader.GetAutoReleasePlansForApplication,
      getMocked_of_mockData _ _ _ _ _ hv, hv, reduceCtorEq, if_false, hn] <;>
    cases r <;>
    simp_all [Any.isOfType, Op.expects,
      TypeParam.ptrApplication, TypeParam.ptrComponent, TypeParam.ptrSnapshot,
      TypeParam.ptrEnvironment, TypeParam.ptrRelease, TypeParam.ptrDeploymentTargetClass,
      TypeParam.ptrDeploymentTargetClaim, TypeParam.ptrDeploymentTarget,
      TypeParam.ptrSnapshotEnvironmentBinding, TypeParam.sliceComponent,
      TypeParam.slicePipelineRun, TypeParam.sliceIntegrationTestScenario,
      TypeParam.sliceSnapshot, TypeParam.sliceReleasePlan]

theorem wrong_type_stub_panics_witness :
    (Context.withValue Context.background (Key.contextKey ApplicationContextKey)
        (CtxValue.mockData wrongTypeStub)).Value
        (Key.contextKey Op.GetApplicationFromSnapshot.key) = CtxValue.mockData wrongTypeStub ∧
    wrongTypeStub.Resource ≠ Any.nil ∧
    wrongTypeStub.Resource.isOfType Op.GetApplicationFromSnapshot.expects = false ∧
    (NewMockLoader emptyLoader).call Op.GetApplicationFromSnapshot k8sClient
        (Context.withValue Context.background (Key.contextKey ApplicationContextKey)
          (CtxValue.mockData wrongTypeStub))
        (some hasSnapshot)
      = Outcome.panics Panic.typeAssertion :=
  ⟨rfl, by decide, rfl,
    wrong_type_stub_panics (NewMockLoader emptyLoader) Op.GetApplicationFromSnapshot k8sClient
      (Context.withValue Context.background (Key.contextKey ApplicationContextKey)
        (CtxValue.mockData wrongTypeStub))
      (some hasSnapshot) wrongTypeStub rfl (by decide) rfl⟩

/-! ## Resolver operations -/

/-- C9 (`GetAutoReleasePlansForApplication`): for every Application `A` and
every store that answers the query, the operation returns without error a
collection that contains exactly the ReleasePlans of `A` (same namespace,
`Spec.Application` equal to the name of `A`) whose auto-release label is not
`"false"`, in store order. In particular a plan labelled `"false"` is excluded
and a plan without the label is included: when the only plan of `A` has no
label the result is that one plan, and when the only plan of `A` is labelled
`"false"` the result is empty, with no error. -/
theorem GetAutoReleasePlansForApplication_policy (c : Client) (ctx : Context) (A : Application)
    (hf : c.Fault = none) :
    ∃ plans : List ReleasePlan,
      loader.GetAutoReleasePlansForApplication c ctx A = Outcome.returns (some plans) none ∧
      (∀ p : ReleasePlan, p ∈ plans ↔
        (p ∈ c.ReleasePlans ∧ p.Namespace = A.Namespace ∧ p.Spec.Application = A.Name) ∧
          p.label AutoReleaseLabel ≠ some "false") ∧
      plans.Sublist c.ReleasePlans ∧
      (∀ p : ReleasePlan,
        c.ReleasePlans.filter (fun q =>
          decide (q.Namespace = A.Namespace ∧ q.Spec.Application = A.Name)) = [p] →
        p.label AutoReleaseLabel = none → plans = [p] ∧ plans.length = 1) ∧
      (∀ p : ReleasePlan,
        c.ReleasePlans.filter (fun q =>
          decide (q.Namespace = A.Namespace ∧ q.Spec.Application = A.Name)) = [p] →
        p.label AutoReleaseLabel = some "false" → plans = [] ∧ plans.length = 0) := by
  refine ⟨(c.ReleasePlans.filter (fun plan =>
      decide (plan.Namespace = A.Namespace ∧ plan.Spec.Application = A.Name))).filter
      (fun plan => decide (plan.label AutoReleaseLabel ≠ some "false")),
    by simp only [loader.GetAutoReleasePlansForApplication, hf], ?_, ?_, ?_, ?_⟩
  · intro p
    simp only [List.mem_filter, decide_eq_true_eq]
  · exact (List.filter_sublist _).trans (List.filter_sublist _)
  · intro p hp hl
    rw [hp]
    simp [List.filter, hl]
  · intro p hp hl
    rw [hp]
    simp [List.filter, hl]

theorem GetAutoReleasePlansForApplication_policy_witness :
    k8sClient.Fault = none ∧
    ∃ plans : List ReleasePlan,
      loader.GetAutoReleasePlansForApplication k8sClient Context.background hasApp
        = Outcome.returns (some plans) none ∧
      (releasePlanNoLabel ∈ plans ↔
        (releasePlanNoLabel ∈ k8sClient.ReleasePlans ∧
          releasePlanNoLabel.Namespace = hasApp.Namespace ∧
          releasePlanNoLabel.Spec.Application = hasApp.Name) ∧
        releasePlanNoLabel.label AutoReleaseLabel ≠ some "false") := by
  refine ⟨rfl, ?_⟩
  obtain ⟨plans, h1, h2, _, _, _⟩ :=
    GetAutoReleasePlansForApplication_policy k8sClient Context.background hasApp rfl
  exact ⟨plans, h1, h2 releasePlanNoLabel⟩

/-- C10 (`GetAllSnapshotComponents`): for every Snapshot `S` and every store
that answers the query, when the Components of the namespace and Application of
`S` are the `named` ones (their names appear in `S.Spec.Components`) together
with the `others` (their names do not), the operation returns without error
exactly the `named` Components: as many as there are, none of the `others`,
and every returned Component has its name in `S.Spec.Components`. -/
theorem GetAllSnapshotComponents_membership (c : Client) (ctx : Context) (S : Snapshot)
    (named others : List Component) (hf : c.Fault = none)
    (hp : (c.Components.filter (fun comp =>
        decide (comp.Namespace = S.Namespace ∧ comp.Spec.Application = S.Spec.Application))).Perm
      (named ++ others))
    (hnamed : ∀ comp ∈ named, comp.Name ∈ S.Spec.Components.map (fun sc => sc.Name))
    (hothers : ∀ comp ∈ others, comp.Name ∉ S.Spec.Components.map (fun sc => sc.Name)) :
    ∃ result : List Component,
      loader.GetAllSnapshotComponents c ctx S = Outcome.returns (some result) none ∧
      result.Perm named ∧
      result.length = named.length ∧
      (∀ comp ∈ others, comp ∉ result) ∧
      (∀ comp ∈ result, comp.Name ∈ S.Spec.Components.map (fun sc => sc.Name)) := by
  have hres : ((c.Components.filter (fun comp =>
        decide (comp.Namespace = S.Namespace ∧ comp.Spec.Application = S.Spec.Application))).filter
      (fun comp => decide (comp.Name ∈ S.Spec.Components.map (fun sc => sc.Name)))).Perm named := by
    refine (hp.filter _).trans ?_
    rw [List.filter_append]
    have h1 : named.filter
        (fun comp => decide (comp.Name ∈ S.Spec.Components.map (fun sc => sc.Name))) = named :=
      List.filter_eq_self.mpr (fun comp hc => decide_eq_true (hnamed comp hc))
    have h2 : others.filter
        (fun comp => decide (comp.Name ∈ S.Spec.Components.map (fun sc => sc.Name))) = [] :=
      List.filter_eq_nil_iff.mpr (fun comp hc => by simpa using hothers comp hc)
    rw [h1, h2, List.append_nil]
  refine ⟨(c.Components.filter (fun comp =>
        decide (comp.Namespace = S.Namespace ∧ comp.Spec.Application = S.Spec.Application))).filter
      (fun comp => decide (comp.Name ∈ S.Spec.Components.map (fun sc => sc.Name))),
    by simp only [loader.GetAllSnapshotComponents, hf], hres, hres.length_eq, ?_, ?_⟩
  · intro comp hc hmem
    have := (List.mem_filter.mp hmem).2
    exact hothers comp hc (of_decide_eq_true this)
  · intro comp hmem
    exact of_decide_eq_true (List.mem_filter.mp hmem).2

theorem GetAllSnapshotComponents_membership_witness :
    k8sClient.Fault = none ∧
    ∃ result : List Component,
      loader.GetAllSnapshotComponents k8sClient Context.background hasSnapshot
        = Outcome.returns (some result) none ∧
      result.length = [hasComp].length ∧ otherComp ∉ result := by
  refine ⟨rfl, ?_⟩
  obtain ⟨result, h1, _, h3, h4, _⟩ :=
    GetAllSnapshotComponents_membership k8sClient Context.background hasSnapshot
      [hasComp] [otherComp] rfl (by decide) (by decide) (by decide)
  exact ⟨result, h1, h3, h4 otherComp (List.mem_singleton.mpr rfl)⟩

/-! ## Resolver operations: parent by reference, children by labels, selection -/

/-- The first element satisfying `p` is found when nothing before it does. -/
theorem find?_append_cons_of_first {α : Type} (p : α → Bool) (pre post : List α) (x : α)
    (hx : p x = true) (hpre : ∀ y ∈ pre, p y = false) :
    (pre ++ x :: post).find? p = some x := by
  induction pre with
  | nil => simp [List.find?, hx]
  | cons y ys ih =>
    have hy := hpre y (List.mem_cons_self _ _)
    simp only [List.cons_append, List.find?, hy]
    exact ih (fun z hz => hpre z (List.mem_cons_of_mem _ hz))

/-- C11 (`GetApplicationFromSnapshot`): for every Snapshot `S` and every store
that answers the query, (1) if an Application named `S.Spec.Application` exists
in the namespace of `S`, the operation returns with no error a stored
Application of that name and namespace, (2) if `A` is the stored Application of
that name and namespace (the only one), the returned object is `A`, so its
object metadata equals that of `A`, and (3) if no such Application exists, the
operation fails with `NotFound` and returns no object. -/
theorem GetApplicationFromSnapshot_resolves (c : Client) (ctx : Context) (S : Snapshot)
    (hf : c.Fault = none) :
    ((∃ a ∈ c.Applications, a.Namespace = S.Namespace ∧ a.Name = S.Spec.Application) →
      ∃ a ∈ c.Applications, a.Namespace = S.Namespace ∧ a.Name = S.Spec.Application ∧
        loader.GetApplicationFromSnapshot c ctx S = Outcome.returns (some a) none) ∧
    (∀ A ∈ c.Applications, A.Namespace = S.Namespace → A.Name = S.Spec.Application →
      (∀ b ∈ c.Applications, b.Namespace = A.Namespace → b.Name = A.Name → b = A) →
      ∃ a : Application, loader.GetApplicationFromSnapshot c ctx S = Outcome.returns (some a) none ∧
        a = A ∧ a.toObjectMeta = A.toObjectMeta) ∧
    ((¬ ∃ a ∈ c.Applications, a.Namespace = S.Namespace ∧ a.Name = S.Spec.Application) →
      loader.GetApplicationFromSnapshot c ctx S
        = Outcome.returns none (some (ErrorValue.notFound S.Spec.Application))) := by
  have key : ∀ a, c.Applications.find? (fun application =>
      decide (application.Namespace = S.Namespace ∧ application.Name = S.Spec.Application))
        = some a →
      a ∈ c.Applications ∧ a.Namespace = S.Namespace ∧ a.Name = S.Spec.Application := by
    intro a ha
    have h1 := List.find?_some ha
    exact ⟨List.mem_of_find?_eq_some ha, of_decide_eq_true h1⟩
  have hex : (∃ a ∈ c.Applications, a.Namespace = S.Namespace ∧ a.Name = S.Spec.Application) →
      ∃ a ∈ c.Applications, a.Namespace = S.Namespace ∧ a.Name = S.Spec.Application ∧
        loader.GetApplicationFromSnapshot c ctx S = Outcome.returns (some a) none := by
    rintro ⟨a, ha, hns, hname⟩
    cases hfind : c.Applications.find? (fun application =>
      decide (application.Namespace = S.Namespace ∧ application.Name = S.Spec.Application)) with
    | none =>
      have := List.find?_eq_none.mp hfind a ha
      simp [hns, hname] at this
    | some b =>
      obtain ⟨hb, hbns, hbname⟩ := key b hfind
      exact ⟨b, hb, hbns, hbname, by simp only [loader.GetApplicationFromSnapshot, hf, hfind]⟩
  refine ⟨hex, ?_, ?_⟩
  · intro A hA hns hname huniq
    obtain ⟨a, ha, hans, haname, hres⟩ := hex ⟨A, hA, hns, hname⟩
    have : a = A := huniq a ha (hans.trans hns.symm) (haname.trans hname.symm)
    exact ⟨a, hres, this, by rw [this]⟩
  · intro hno
    have hfind : c.Applications.find? (fun application =>
        decide (application.Namespace = S.Namespace ∧ application.Name = S.Spec.Application))
        = none := by
      apply List.find?_eq_none.mpr
      intro a ha hp
      exact hno ⟨a, ha, of_decide_eq_true hp⟩
    simp only [loader.GetApplicationFromSnapshot, hf, hfind]

theorem GetApplicationFromSnapshot_resolves_witness :
    pipelineClient.Fault = none ∧
    ∃ a : Application,
      loader.GetApplicationFromSnapshot pipelineClient Context.background hasSnapshot
        = Outcome.returns (some a) none ∧ a = hasApp ∧ a.toObjectMeta = hasApp.toObjectMeta :=
  ⟨rfl, (GetApplicationFromSnapshot_resolves pipelineClient Context.background hasSnapshot rfl).2.1
    hasApp (by decide) rfl rfl (by decide)⟩

/-- C12, the claim refuted on the store of the test: in `pipelineClient` both
PipelineRuns the test creates are in the namespace of `hasSnapshot` and carry
the pair `"snapshot-sample"`, `"example-pass"`, while the test asserts a result
of length 1. The operation, with a further selection that meets that assertion,
returns the one PipelineRun `integrationPipelineRun` and leaves out
`buildPipelineRun`, which carries both labels; and no collection of length 1
is exactly the PipelineRuns carrying the pair. -/
theorem pipelineRuns_carrying_the_pair_are_not_all_returned :
    hasSnapshot.Name = "snapshot-sample" ∧ integrationTestScenario.Name = "example-pass" ∧
    pipelineClient.PipelineRuns = [buildPipelineRun, integrationPipelineRun] ∧
    (∀ p ∈ pipelineClient.PipelineRuns, p.Namespace = hasSnapshot.Namespace ∧
      p.label SnapshotLabel = some hasSnapshot.Name ∧
      p.label ScenarioLabel = some integrationTestScenario.Name) ∧
    loader.GetAllPipelineRunsForSnapshotAndScenario isTestPipelineRun pipelineClient
        Context.background hasSnapshot integrationTestScenario
      = Outcome.returns (some [integrationPipelineRun]) none ∧
    buildPipelineRun ∉ [integrationPipelineRun] ∧
    ¬ ∃ runs : List PipelineRun, runs.length = 1 ∧
      ∀ p : PipelineRun, p ∈ runs ↔
        (p ∈ pipelineClient.PipelineRuns ∧ p.Namespace = hasSnapshot.Namespace ∧
          p.label SnapshotLabel = some hasSnapshot.Name ∧
          p.label ScenarioLabel = some integrationTestScenario.Name) := by
  refine ⟨rfl, rfl, rfl, by decide, by decide, by decide, ?_⟩
  rintro ⟨runs, hlen, hiff⟩
  have hb : buildPipelineRun ∈ runs := (hiff buildPipelineRun).mpr (by decide)
  have hi : integrationPipelineRun ∈ runs := (hiff integrationPipelineRun).mpr (by decide)
  obtain ⟨x, rfl⟩ := List.length_eq_one.mp hlen
  have h1 : buildPipelineRun = x := List.mem_singleton.mp hb
  have h2 : integrationPipelineRun = x := List.mem_singleton.mp hi
  exact absurd (h1.trans h2.symm) (by decide)

/-- C12 as amended (`GetAllPipelineRunsForSnapshotAndScenario`): for every
Snapshot `S`, scenario `T`, further selection and store that answers the query,
the operation returns with no error a collection, in store order, that holds
only PipelineRuns of the namespace of `S` carrying the name of `S` as snapshot
label and the name of `T` as scenario label: exactly those of them that the
further selection keeps. When exactly one PipelineRun `p` of the store carries
the pair and is kept, the result is the one-element collection `[p]`, and when
no PipelineRun carries the pair, as for any other scenario name, the result is
the empty collection with no error. -/
theorem GetAllPipelineRunsForSnapshotAndScenario_selects (selects : PipelineRun → Bool)
    (c : Client) (ctx : Context)
    (S : Snapshot) (T : IntegrationTestScenario) (hf : c.Fault = none) :
    ∃ runs : List PipelineRun,
      loader.GetAllPipelineRunsForSnapshotAndScenario selects c ctx S T
        = Outcome.returns (some runs) none ∧
      (∀ p : PipelineRun, p ∈ runs ↔
        p ∈ c.PipelineRuns ∧ (p.Namespace = S.Namespace ∧
          p.label SnapshotLabel = some S.Name ∧ p.label ScenarioLabel = some T.Name) ∧
          selects p = true) ∧
      (∀ p ∈ runs, p.Namespace = S.Namespace ∧
          p.label SnapshotLabel = some S.Name ∧ p.label ScenarioLabel = some T.Name) ∧
      runs.Sublist c.PipelineRuns ∧
      (∀ (pre post : List PipelineRun) (p : PipelineRun),
        c.PipelineRuns = pre ++ p :: post →
        ((p.Namespace = S.Namespace ∧
          p.label SnapshotLabel = some S.Name ∧ p.label ScenarioLabel = some T.Name) ∧
          selects p = true) →
        (∀ q ∈ pre ++ post, ¬ ((q.Namespace = S.Namespace ∧
          q.label SnapshotLabel = some S.Name ∧ q.label ScenarioLabel = some T.Name) ∧
          selects q = true)) →
        runs = [p] ∧ runs.length = 1) ∧
      ((∀ q ∈ c.PipelineRuns, ¬ (q.Namespace = S.Namespace ∧
          q.label SnapshotLabel = some S.Name ∧ q.label ScenarioLabel = some T.Name)) →
        runs = [] ∧ runs.length = 0) := by
  refine ⟨c.PipelineRuns.filter (fun pipelineRun =>
        decide ((pipelineRun.Namespace = S.Namespace ∧
          pipelineRun.label SnapshotLabel = some S.Name ∧
          pipelineRun.label ScenarioLabel = some T.Name) ∧ selects pipelineRun = true)),
    by simp only [loader.GetAllPipelineRunsForSnapshotAndScenario, hf], ?_, ?_, ?_, ?_, ?_⟩
  · intro p
    simp only [List.mem_filter, decide_eq_true_eq]
  · intro p hp
    exact (of_decide_eq_true (List.mem_filter.mp hp).2).1
  · exact List.filter_sublist _
  · intro pre post p hc hp hq
    have h1 : pre.filter (fun pipelineRun =>
        decide ((pipelineRun.Namespace = S.Namespace ∧
          pipelineRun.label SnapshotLabel = some S.Name ∧
          pipelineRun.label ScenarioLabel = some T.Name) ∧ selects pipelineRun = true)) = [] :=
      List.filter_eq_nil_iff.mpr (fun q hqm hd =>
        hq q (List.mem_append_left _ hqm) (of_decide_eq_true hd))
    have h2 : post.filter (fun pipelineRun =>
        decide ((pipelineRun.Namespace = S.Namespace ∧
          pipelineRun.label SnapshotLabel = some S.Name ∧
          pipelineRun.label ScenarioLabel = some T.Name) ∧ selects pipelineRun = true)) = [] :=
      List.filter_eq_nil_iff.mpr (fun q hqm hd =>
        hq q (List.mem_append_right _ hqm) (of_decide_eq_true hd))
    have h3 : decide ((p.Namespace = S.Namespace ∧
          p.label SnapshotLabel = some S.Name ∧
          p.label ScenarioLabel = some T.Name) ∧ selects p = true) = true := decide_eq_true hp
    rw [hc, List.filter_append, List.filter_cons, h1, h2, h3]
    simp
  · intro hq
    have h1 : c.PipelineRuns.filter (fun pipelineRun =>
        decide ((pipelineRun.Namespace = S.Namespace ∧
          pipelineRun.label SnapshotLabel = some S.Name ∧
          pipelineRun.label ScenarioLabel = some T.Name) ∧ selects pipelineRun = true)) = [] :=
      List.filter_eq_nil_iff.mpr (fun q hqm hd => hq q hqm (of_decide_eq_true hd).1)
    rw [h1]
    simp

theorem GetAllPipelineRunsForSnapshotAndScenario_selects_witness :
    pipelineClient.Fault = none ∧
    pipelineClient.PipelineRuns = [buildPipelineRun] ++ integrationPipelineRun :: [] ∧
    (∃ runs : List PipelineRun,
      loader.GetAllPipelineRunsForSnapshotAndScenario isTestPipelineRun pipelineClient
          Context.background hasSnapshot integrationTestScenario
        = Outcome.returns (some runs) none ∧
      runs = [integrationPipelineRun] ∧ runs.length = 1) ∧
    (∃ runs : List PipelineRun,
      loader.GetAllPipelineRunsForSnapshotAndScenario isTestPipelineRun pipelineClient
          Context.background hasSnapshot otherScenario
        = Outcome.returns (some runs) none ∧
      runs = [] ∧ runs.length = 0) := by
  refine ⟨rfl, rfl, ?_, ?_⟩
  · obtain ⟨runs, h1, _, _, _, h5, _⟩ :=
      GetAllPipelineRunsForSnapshotAndScenario_selects isTestPipelineRun pipelineClient
        Context.background hasSnapshot integrationTestScenario rfl
    exact ⟨runs, h1,
      h5 [buildPipelineRun] [] integrationPipelineRun rfl (by decide) (by decide)⟩
  · obtain ⟨runs, h1, _, _, _, _, h6⟩ :=
      GetAllPipelineRunsForSnapshotAndScenario_selects isTestPipelineRun pipelineClient
        Context.background hasSnapshot otherScenario rfl
    exact ⟨runs, h1, h6 (by decide)⟩

/-- C13 (`FindAvailableDeploymentTargetClass`): for every store that answers
the query and every provisioner criteria, the operation returns with no error
the first DeploymentTargetClass in listing order that matches the criteria (the
class `cls` before which no listed class matches), and when no listed class
matches it fails with `NotFound` and returns no class. -/
theorem FindAvailableDeploymentTargetClass_first_match
    (matchesProvisioner : DeploymentTargetClass → Bool) (c : Client) (ctx : Context)
    (hf : c.Fault = none) :
    (∀ (pre post : List DeploymentTargetClass) (cls : DeploymentTargetClass),
      c.DeploymentTargetClasses = pre ++ cls :: post →
      matchesProvisioner cls = true → (∀ x ∈ pre, matchesProvisioner x = false) →
      loader.FindAvailableDeploymentTargetClass matchesProvisioner c ctx
        = Outcome.returns (some cls) none) ∧
    ((∀ x ∈ c.DeploymentTargetClasses, matchesProvisioner x = false) →
      loader.FindAvailableDeploymentTargetClass matchesProvisioner c ctx
        = Outcome.returns none (some (ErrorValue.notFound "DeploymentTargetClass"))) := by
  constructor
  · intro pre post cls hc hcls hpre
    have hfind := find?_append_cons_of_first matchesProvisioner pre post cls hcls hpre
    rw [← hc] at hfind
    simp only [loader.FindAvailableDeploymentTargetClass, hf, hfind]
  · intro hno
    have hfind : c.DeploymentTargetClasses.find? matchesProvisioner = none :=
      List.find?_eq_none.mpr (fun x hx => by simp [hno x hx])
    simp only [loader.FindAvailableDeploymentTargetClass, hf, hfind]

theorem FindAvailableDeploymentTargetClass_first_match_witness :
    pipelineClient.Fault = none ∧
    pipelineClient.DeploymentTargetClasses
      = [otherDeploymentTargetClass] ++ deploymentTargetClass :: [] ∧
    isDevsandbox deploymentTargetClass = true ∧
    (∀ x ∈ [otherDeploymentTargetClass], isDevsandbox x = false) ∧
    loader.FindAvailableDeploymentTargetClass isDevsandbox pipelineClient Context.background
      = Outcome.returns (some deploymentTargetClass) none :=
  ⟨rfl, rfl, by decide, by decide,
    (FindAvailableDeploymentTargetClass_first_match isDevsandbox pipelineClient
      Context.background rfl).1 [otherDeploymentTargetClass] [] deploymentTargetClass rfl
      (by decide) (by decide)⟩

/-! ## The generic helper and the methods built on it -/

/-- The helper raises the not-found panic exactly on a nil value under the key. -/
theorem getMocked_eq_notFound_iff {T : Type} (tp : TypeParam T) (ctx : Context)
    (k : contextKey) (z : T) :
    getMockedResourceAndErrorFromContext tp ctx k z = Outcome.panics Panic.mockedDataNotFound
      ↔ ctx.Value (Key.contextKey k) = CtxValue.nil := by
  unfold getMockedResourceAndErrorFromContext
  by_cases h : ctx.Value (Key.contextKey k) = CtxValue.nil
  · simp [h]
  · simp only [h, if_false, iff_false]
    split <;> simp

/-- C15 (contract of `getMockedResourceAndErrorFromContext`): for every type
parameter, context and key, (1) the helper panics with "Mocked data not found
in the context" exactly when the context holds nil under the key, (2) when the
context holds a `MockData` whose `Resource` is nil the helper does not panic
and returns the zero value of `T` and the `Err` of the `MockData`, and (3) when
the `Resource` is a value of type `T` the helper does not panic and returns
that value and the `Err` of the `MockData`. -/
theorem getMockedResourceAndErrorFromContext_contract {T : Type} (tp : TypeParam T)
    (ctx : Context) (k : contextKey) (z : T) :
    (getMockedResourceAndErrorFromContext tp ctx k z = Outcome.panics Panic.mockedDataNotFound
      ↔ ctx.Value (Key.contextKey k) = CtxValue.nil) ∧
    (∀ d : MockData, ctx.Value (Key.contextKey k) = CtxValue.mockData d →
      d.Resource = Any.nil →
      getMockedResourceAndErrorFromContext tp ctx k z = Outcome.returns tp.zero d.Err) ∧
    (∀ (d : MockData) (v : T), ctx.Value (Key.contextKey k) = CtxValue.mockData d →
      d.Resource ≠ Any.nil → tp.assert d.Resource = some v →
      getMockedResourceAndErrorFromContext tp ctx k z = Outcome.returns v d.Err) := by
  refine ⟨getMocked_eq_notFound_iff tp ctx k z, ?_, ?_⟩
  · intro d hd hr
    rw [getMocked_of_mockData tp ctx k z d hd]
    simp [hr]
  · intro d v hd hr hv
    rw [getMocked_of_mockData tp ctx k z d hd]
    simp [hr, hv]

theorem getMockedResourceAndErrorFromContext_contract_witness :
    (GetMockedContext Context.background [environmentStub]).Value
        (Key.contextKey EnvironmentContextKey) = CtxValue.mockData environmentStub ∧
    environmentStub.Resource ≠ Any.nil ∧
    TypeParam.ptrEnvironment.assert environmentStub.Resource = some (some hasEnv) ∧
    getMockedResourceAndErrorFromContext TypeParam.ptrEnvironment
        (GetMockedContext Context.background [environmentStub]) EnvironmentContextKey
        (some default)
      = Outcome.returns (some hasEnv) environmentStub.Err :=
  ⟨rfl, by decide, rfl,
    (getMockedResourceAndErrorFromContext_contract TypeParam.ptrEnvironment
      (GetMockedContext Context.background [environmentStub]) EnvironmentContextKey
      (some default)).2.2 environmentStub (some hasEnv) rfl (by decide) rfl⟩

/-- C16 (collection wrapping of single-object stubs): when the context holds
under `EnvironmentContextKey` a `MockData` whose `Resource` is a non-nil
`*Environment` pointing to `E`, `GetAllEnvironments` returns the collection of
length 1 whose only element is `E`, together with the registered error; and
likewise `GetReleasesWithSnapshot` with `ReleaseContextKey` and a non-nil
`*Release`. -/
theorem single_object_stub_is_wrapped (l : mockLoader) (c : Client) (ctx : Context) :
    (∀ (application : Option Application) (d : MockData) (E : Environment),
      ctx.Value (Key.contextKey EnvironmentContextKey) = CtxValue.mockData d →
      d.Resource = Any.ptrEnvironment (some E) →
      l.GetAllEnvironments c ctx application = Outcome.returns (some [E]) d.Err ∧
        [E].length = 1) ∧
    (∀ (snapshot : Option Snapshot) (d : MockData) (R : Release),
      ctx.Value (Key.contextKey ReleaseContextKey) = CtxValue.mockData d →
      d.Resource = Any.ptrRelease (some R) →
      l.GetReleasesWithSnapshot c ctx snapshot = Outcome.returns (some [R]) d.Err ∧
        [R].length = 1) := by
  constructor
  · intro application d E hd hr
    refine ⟨?_, rfl⟩
    simp [mockLoader.GetAllEnvironments, hd, getMocked_of_mockData _ _ _ _ _ hd, hr,
      TypeParam.ptrEnvironment]
  · intro snapshot d R hd hr
    refine ⟨?_, rfl⟩
    simp [mockLoader.GetReleasesWithSnapshot, hd, getMocked_of_mockData _ _ _ _ _ hd, hr,
      TypeParam.ptrRelease]

theorem single_object_stub_is_wrapped_witness :
    (GetMockedContext Context.background [environmentStub]).Value
        (Key.contextKey EnvironmentContextKey) = CtxValue.mockData environmentStub ∧
    environmentStub.Resource = Any.ptrEnvironment (some hasEnv) ∧
    (NewMockLoader emptyLoader).GetAllEnvironments k8sClient
        (GetMockedContext Context.background [environmentStub]) (some hasApp)
      = Outcome.returns (some [hasEnv]) environmentStub.Err :=
  ⟨rfl, rfl,
    ((single_object_stub_is_wrapped (NewMockLoader emptyLoader) k8sClient
      (GetMockedContext Context.background [environmentStub])).1 (some hasApp) environmentStub
      hasEnv rfl rfl).1⟩

/-- C17 (the not-found panic is unreachable through the methods): for every
operation, wrapped loader, client, input and context, the method reaches the
helper only when the context holds a non-nil value under the key of the method,
where the helper never raises "Mocked data not found in the context"; on a nil
value the method is the call of the wrapped loader. So a method ends in that
panic only if the wrapped loader itself does. -/
theorem mocked_data_not_found_unreachable (l : mockLoader) (o : Op) (c : Client)
    (ctx : Context) (i : o.Input) :
    (ctx.Value (Key.contextKey o.key) ≠ CtxValue.nil →
      l.call o c ctx i ≠ Outcome.panics Panic.mockedDataNotFound) ∧
    (ctx.Value (Key.contextKey o.key) = CtxValue.nil →
      l.call o c ctx i = l.loader.call o c ctx i) ∧
    (l.call o c ctx i = Outcome.panics Panic.mockedDataNotFound →
      l.loader.call o c ctx i = Outcome.panics Panic.mockedDataNotFound) := by
  have h1 : ctx.Value (Key.contextKey o.key) ≠ CtxValue.nil →
      l.call o c ctx i ≠ Outcome.panics Panic.mockedDataNotFound := by
    intro hn h
    cases o <;> simp only [Op.key] at hn <;>
      simp only [mockLoader.call, mockLoader.GetAllEnvironments,
        mockLoader.GetReleasesWithSnapshot,
        mockLoader.GetAllApplicationComponents, mockLoader.GetAllSnapshotComponents,
        mockLoader.GetApplicationFromSnapshot, mockLoader.GetComponentFromSnapshot,
        mockLoader.GetComponentFromPipelineRun, mockLoader.GetApplicationFromPipelineRun,
        mockLoader.GetApplicationFromComponent,
        mockLoader.GetEnvironmentFromIntegrationPipelineRun,
        mockLoader.GetSnapshotFromPipelineRun, mockLoader.FindAvailableDeploymentTargetClass,
        mockLoader.GetAllIntegrationTestScenariosForApplication,
        mockLoader.GetRequiredIntegrationTestScenariosForApplication,
        mockLoader.GetDeploymentTargetClaimForEnvironment,
        mockLoader.GetDeploymentTargetForDeploymentTargetClaim,
        mockLoader.FindExistingSnapshotEnvironmentBinding,
        mockLoader.GetAllPipelineRunsForSnapshotAndScenario,
        mockLoader.GetAllBuildPipelineRunsForComponent, mockLoader.GetAllSnapshots,
        mockLoader.GetAutoReleasePlansForApplication, hn, if_false] at h
    all_goals
      first
      | exact hn ((getMocked_eq_notFound_iff _ _ _ _).mp h)
      | (split at h
         · rename_i p hp
           injection h with h
           subst h
           exact hn ((getMocked_eq_notFound_iff _ _ _ _).mp hp)
         · first
           | exact Outcome.noConfusion h
           | (split at h
              · injection h with h
                exact Panic.noConfusion h
              · exact Outcome.noConfusion h))
  refine ⟨h1, mockLoader.call_of_nil l o c ctx i, ?_⟩
  intro h
  by_cases hn : ctx.Value (Key.contextKey o.key) = CtxValue.nil
  · rw [← mockLoader.call_of_nil l o c ctx i hn]
    exact h
  · exact absurd h (h1 hn)

theorem mocked_data_not_found_unreachable_witness :
    (GetMockedContext Context.background [listFailedStub]).Value
        (Key.contextKey Op.GetAllSnapshots.key) ≠ CtxValue.nil ∧
    (NewMockLoader emptyLoader).call Op.GetAllSnapshots k8sClient
        (GetMockedContext Context.background [listFailedStub]) (some hasApp)
      ≠ Outcome.panics Panic.mockedDataNotFound :=
  ⟨by decide,
    (mocked_data_not_found_unreachable (NewMockLoader emptyLoader) Op.GetAllSnapshots k8sClient
      (GetMockedContext Context.background [listFailedStub]) (some hasApp)).1 (by decide)⟩

/-! ## The context keys and the fold -/

/-- C18 (context-key constants): the 18 exported constants are, in declaration
order, the values 0 to 17 of `contextKey`; they are pairwise distinct; and a
`MockData` registered under one key leaves the lookup under every other key as
it was, so it is never what a lookup under another constant retrieves from the
registration. -/
theorem context_keys_distinct :
    contextKeys = (List.range 18).map (fun n => (n : Int)) ∧
    contextKeys.length = 18 ∧
    contextKeys.Pairwise (fun k1 k2 => k1 ≠ k2) ∧
    (∀ k1 ∈ contextKeys, ∀ k2 ∈ contextKeys, k1 ≠ k2 →
      ∀ (ctx : Context) (d : MockData), d.ContextKey = k1 →
        (GetMockedContext ctx [d]).Value (Key.contextKey k2) = ctx.Value (Key.contextKey k2) ∧
        (GetMockedContext ctx [d]).Value (Key.contextKey k1) = CtxValue.mockData d) := by
  refine ⟨by decide, by decide, by decide, ?_⟩
  intro k1 _ k2 _ hne ctx d hd
  subst hd
  constructor
  · simp only [GetMockedContext, List.foldl, Context.Value]
    rw [if_neg]
    intro h
    injection h with h
    exact hne h
  · simp [GetMockedContext, Context.Value]

theorem context_keys_distinct_witness :
    EnvironmentContextKey ∈ contextKeys ∧ ReleaseContextKey ∈ contextKeys ∧
    EnvironmentContextKey ≠ ReleaseContextKey ∧
    (GetMockedContext Context.background [environmentStub]).Value
        (Key.contextKey ReleaseContextKey)
      = Context.background.Value (Key.contextKey ReleaseContextKey) :=
  ⟨by decide, by decide, by decide,
    (context_keys_distinct.2.2.2 EnvironmentContextKey (by decide) ReleaseContextKey (by decide)
      (by decide) Context.background environmentStub rfl).1⟩

/-- The value under a key is the last entry of the list carrying that key. -/
theorem Value_GetMockedContext_of_getLast? (ctx : Context) (data : List MockData)
    (K : contextKey) (d : MockData)
    (h : (data.filter (fun e => decide (e.ContextKey = K))).getLast? = some d) :
    (GetMockedContext ctx data).Value (Key.contextKey K) = CtxValue.mockData d := by
  induction data using List.reverseRecOn with
  | nil => simp at h
  | append_singleton init x ih =>
    rw [GetMockedContext_concat]
    by_cases hx : x.ContextKey = K
    · have : (List.filter (fun e => decide (e.ContextKey = K)) (init ++ [x])).getLast? = some x := by
        simp [List.filter_append, List.filter_cons, hx]
      rw [this] at h
      injection h with h
      subst h
      simp [Context.Value, hx]
    · have : List.filter (fun e => decide (e.ContextKey = K)) (init ++ [x])
          = List.filter (fun e => decide (e.ContextKey = K)) init := by
        simp [List.filter_append, List.filter_cons, hx]
      rw [this] at h
      have hk : Key.contextKey x.ContextKey ≠ Key.contextKey K := by
        intro hk
        injection hk with hk
        exact hx hk
      simp only [Context.Value, if_neg hk]
      exact ih h

/-- C19 (last registration wins): for every parent context and every list in
which entries share the key `K`, the resulting context holds under `K` the last
entry of the list carrying `K` (whatever the earlier entries and the parent
hold under `K`), and an operation keyed by `K` behaves as it does when that
last entry is the only registered one, so it returns the `Resource` and `Err`
of the last entry. -/
theorem last_registration_wins (ctx : Context) (data : List MockData) (K : contextKey)
    (d : MockData)
    (h : (data.filter (fun e => decide (e.ContextKey = K))).getLast? = some d) :
    (GetMockedContext ctx data).Value (Key.contextKey K) = CtxValue.mockData d ∧
    (∀ (l : mockLoader) (o : Op) (c : Client) (i : o.Input), o.key = K →
      l.call o c (GetMockedContext ctx data) i
        = l.call o c (GetMockedContext Context.background [d]) i) := by
  have hv := Value_GetMockedContext_of_getLast? ctx data K d h
  refine ⟨hv, ?_⟩
  intro l o c i hk
  subst hk
  have hdk : d.ContextKey = o.key := by
    have hm := List.mem_of_getLast?_eq_some h
    exact of_decide_eq_true (List.mem_filter.mp hm).2
  have h2 : (GetMockedContext Context.background [d]).Value (Key.contextKey o.key)
      = CtxValue.mockData d := by
    simp [GetMockedContext, Context.Value, hdk]
  exact mockLoader.call_congr l l o c c _ _ i i (hv.trans h2.symm)
    (by rw [hv]; exact fun h => CtxValue.noConfusion h)

theorem last_registration_wins_witness :
    ([environmentStub, listFailedStub, environmentErrorStub].filter
        (fun e => decide (e.ContextKey = EnvironmentContextKey))).getLast?
      = some environmentErrorStub ∧
    (GetMockedContext (GetMockedContext Context.background [environmentStub])
        [environmentStub, listFailedStub, environmentErrorStub]).Value
        (Key.contextKey EnvironmentContextKey)
      = CtxValue.mockData environmentErrorStub :=
  ⟨by decide,
    (last_registration_wins (GetMockedContext Context.background [environmentStub])
      [environmentStub, listFailedStub, environmentErrorStub] EnvironmentContextKey
      environmentErrorStub (by decide)).1⟩

/-- C20 (`GetMockedContext` is a left fold over its list): with the empty list
the result is the parent context itself, so every operation behaves as it does
under the parent; one more entry at the end of the list is one more
`WithValue` around the result for the list before it; and for all lists `a`
and `b` the context for `a ++ b` is the context obtained by registering `b` on
top of the context for `a`, with the same lookup under every key. -/
theorem GetMockedContext_left_fold (ctx : Context) :
    GetMockedContext ctx [] = ctx ∧
    (∀ (l : mockLoader) (o : Op) (c : Client) (i : o.Input),
      l.call o c (GetMockedContext ctx []) i = l.call o c ctx i) ∧
    (∀ (a : List MockData) (d : MockData),
      GetMockedContext ctx (a ++ [d])
        = Context.withValue (GetMockedContext ctx a) (Key.contextKey d.ContextKey)
            (CtxValue.mockData d)) ∧
    (∀ a b : List MockData,
      GetMockedContext ctx (a ++ b) = GetMockedContext (GetMockedContext ctx a) b) ∧
    (∀ (a b : List MockData) (K : Key),
      (GetMockedContext ctx (a ++ b)).Value K
        = (GetMockedContext (GetMockedContext ctx a) b).Value K) := by
  refine ⟨rfl, fun _ _ _ _ => rfl, GetMockedContext_concat ctx, GetMockedContext_append ctx, ?_⟩
  intro a b K
  rw [GetMockedContext_append]

end Loader
